import Mathlib

/-!
Verification of the touch-gesture and camera-motion core of the cubeworld
repository.  The TypeScript controllers under src/input are shallowly
embedded as Lean state machines: numbers become real numbers, the
JavaScript Map of touch points becomes an insertion-ordered association
list, `requestAnimationFrame` scheduling becomes an explicit `Option`
field holding the captured locals of the pending callback, and each event
handler becomes a pure function from state and event data to a new state
together with the list of camera/world commands issued synchronously by
the handler.
-/

namespace Cubeworld

/-- Gesture types of CameraTouchController (`'none' | 'rotate' | 'pinch' | 'pan'`). -/
inductive GestureType where
  | none
  | rotate
  | pinch
  | pan
deriving DecidableEq, Repr

/-- A raw touch as delivered in a TouchEvent: identifier and client coordinates. -/
structure Touch where
  id : Nat
  x : ℝ
  y : ℝ

/-- Tracked touch point of CameraTouchController (`TouchPoint` interface). -/
structure CamTouchPoint where
  id : Nat
  x : ℝ
  y : ℝ
  timestamp : ℝ

/-- Velocity record of CameraTouchController (`Velocity` interface). -/
structure Velocity where
  x : ℝ
  y : ℝ
  timestamp : ℝ

/-- The locals captured by the `animate` closure of `startMomentum`:
`velocityX`, `velocityY`, `lastX`, `lastY`.  The presence of such a record in
the controller state models a scheduled `requestAnimationFrame` callback
(`momentumAnimationId !== null`); `none` models no scheduled callback. -/
structure MomoState where
  velocityX : ℝ
  velocityY : ℝ
  lastX : ℝ
  lastY : ℝ

/-- Camera commands issued to the CameraController collaborator. -/
inductive CamCall where
  | rotate (dx dy : ℝ)
  | zoom (delta : ℝ)
  | pan (dx dy : ℝ)

/-- Mutable state of CameraTouchController. -/
structure CamState where
  enabled : Bool
  touches : List CamTouchPoint
  gestureType : GestureType
  previousDistance : ℝ
  previousMidpoint : ℝ × ℝ
  rotationSensitivity : ℝ
  zoomSensitivity : ℝ
  panSensitivity : ℝ
  momentumEnabled : Bool
  velocity : Velocity
  momentum : Option MomoState

/-- `MOMENTUM_FRICTION = 0.92`. -/
def MOMENTUM_FRICTION : ℝ := 0.92

/-- `MOMENTUM_MIN_VELOCITY = 0.1`. -/
def MOMENTUM_MIN_VELOCITY : ℝ := 0.1

/-- State established by the constructor of CameraTouchController. -/
def camInit : CamState where
  enabled := true
  touches := []
  gestureType := GestureType.none
  previousDistance := 0
  previousMidpoint := (0, 0)
  rotationSensitivity := 1
  zoomSensitivity := 1
  panSensitivity := 1
  momentumEnabled := true
  velocity := ⟨0, 0, 0⟩
  momentum := Option.none

/-- `Map.set` on the insertion-ordered touch map: an existing key is replaced
in place, a new key is appended. -/
def mapSet (ts : List CamTouchPoint) (p : CamTouchPoint) : List CamTouchPoint :=
  if ts.any (fun q => q.id = p.id) then
    ts.map (fun q => if q.id = p.id then p else q)
  else
    ts ++ [p]

/-- Rebuild the touch map from the touches of an event (`this.touches.clear()`
followed by `set` for each event touch), stamping each with the current time. -/
noncomputable def rebuildTouches (ev : List Touch) (now : ℝ) : List CamTouchPoint :=
  ev.foldl (fun ts t => mapSet ts ⟨t.id, t.x, t.y, now⟩) []

/-- `calculateDistance`: Euclidean distance between two touch points. -/
noncomputable def calculateDistance (t1 t2 : CamTouchPoint) : ℝ :=
  Real.sqrt ((t2.x - t1.x) * (t2.x - t1.x) + (t2.y - t1.y) * (t2.y - t1.y))

/-- `calculateMidpoint`: midpoint of two touch points. -/
noncomputable def calculateMidpoint (t1 t2 : CamTouchPoint) : ℝ × ℝ :=
  ((t1.x + t2.x) / 2, (t1.y + t2.y) / 2)

/-- `updateGestureType`: recompute the gesture from the touch count; with two
touches, pinch when `previousDistance` is zero or the distance moved more than
5 from `previousDistance`, otherwise pan. -/
noncomputable def updateGestureType (s : CamState) : CamState :=
  if s.touches.length = 0 then
    { s with gestureType := GestureType.none }
  else if s.touches.length = 1 then
    { s with gestureType := GestureType.rotate }
  else if s.touches.length = 2 then
    match s.touches with
    | t1 :: t2 :: _ =>
      let distance := calculateDistance t1 t2
      if s.previousDistance = 0 then
        { s with gestureType := GestureType.pinch }
      else if |distance - s.previousDistance| > 5 then
        { s with gestureType := GestureType.pinch }
      else
        { s with gestureType := GestureType.pan }
    | _ => s
  else
    s

/-- `stopMomentum`: cancel the scheduled animation callback and clear the
velocity record. -/
def stopMomentum (s : CamState) : CamState :=
  { s with momentum := Option.none, velocity := ⟨0, 0, 0⟩ }

/-- `handleTouchStart`: when enabled, stop momentum, add the event touches to
the map, reclassify, and for pinch/pan initialize `previousDistance` and
`previousMidpoint`.  Issues no camera calls. -/
noncomputable def camHandleTouchStart (s : CamState) (ev : List Touch) (now : ℝ) : CamState :=
  if s.enabled = false then s else
  let s1 := stopMomentum s
  let s2 := { s1 with
    touches := ev.foldl (fun ts t => mapSet ts ⟨t.id, t.x, t.y, now⟩) s1.touches }
  let s3 := updateGestureType s2
  if s3.gestureType = GestureType.pinch ∨ s3.gestureType = GestureType.pan then
    match s3.touches with
    | t1 :: t2 :: _ =>
      { s3 with previousDistance := calculateDistance t1 t2,
                previousMidpoint := calculateMidpoint t1 t2 }
    | _ => s3
  else s3

/-- `handleRotateGesture`: emit a rotate command from the delta of the single
current touch against its previous record, scaled by rotation sensitivity. -/
noncomputable def handleRotateGesture (s : CamState) (previousTouches : List CamTouchPoint) :
    List CamCall :=
  match s.touches with
  | [] => []
  | cur :: _ =>
    match previousTouches.find? (fun q => q.id = cur.id) with
    | Option.none => []
    | Option.some prev =>
      [CamCall.rotate ((cur.x - prev.x) * s.rotationSensitivity)
                      ((cur.y - prev.y) * s.rotationSensitivity)]

/-- `handlePinchGesture`: with two touches, emit a zoom command when the stored
`previousDistance` is positive, then store the current distance. -/
noncomputable def handlePinchGesture (s : CamState) : CamState × List CamCall :=
  match s.touches with
  | t1 :: t2 :: _ =>
    let currentDistance := calculateDistance t1 t2
    let calls :=
      if s.previousDistance > 0 then
        [CamCall.zoom (-(currentDistance - s.previousDistance) * 0.01 * s.zoomSensitivity)]
      else []
    ({ s with previousDistance := currentDistance }, calls)
  | _ => (s, [])

/-- `handlePanGesture`: with two touches, emit a pan command from the midpoint
delta only when both coordinates of the stored previous midpoint are nonzero,
then store the current midpoint. -/
noncomputable def handlePanGesture (s : CamState) : CamState × List CamCall :=
  match s.touches with
  | t1 :: t2 :: _ =>
    let currentMidpoint := calculateMidpoint t1 t2
    let calls :=
      if s.previousMidpoint.1 ≠ 0 ∧ s.previousMidpoint.2 ≠ 0 then
        [CamCall.pan ((currentMidpoint.1 - s.previousMidpoint.1) * s.panSensitivity)
                     ((currentMidpoint.2 - s.previousMidpoint.2) * s.panSensitivity)]
      else []
    ({ s with previousMidpoint := currentMidpoint }, calls)
  | _ => (s, [])

/-- The state after the touch-map rebuild and reclassification performed at the
top of `handleTouchMove`. -/
noncomputable def moveClassified (s : CamState) (ev : List Touch) (now : ℝ) : CamState :=
  updateGestureType { s with touches := rebuildTouches ev now }

/-- `handleTouchMove`: when enabled, rebuild the touch map, reclassify, and
dispatch to the rotate, pinch or pan handler. -/
noncomputable def camHandleTouchMove (s : CamState) (ev : List Touch) (now : ℝ) :
    CamState × List CamCall :=
  if s.enabled = false then (s, []) else
  let previousTouches := s.touches
  let s1 := moveClassified s ev now
  if s1.gestureType = GestureType.rotate ∧ s1.touches.length = 1 then
    (s1, handleRotateGesture s1 previousTouches)
  else if s1.gestureType = GestureType.pinch ∧ s1.touches.length = 2 then
    handlePinchGesture s1
  else if s1.gestureType = GestureType.pan ∧ s1.touches.length = 2 then
    handlePanGesture s1
  else (s1, [])

/-- `calculateVelocity`: with a current touch, either derive a velocity from
the previous velocity record when the time delta is in (0, 100), or store the
current position and time into the velocity record. -/
noncomputable def calculateVelocity (s : CamState) (now : ℝ) : CamState :=
  match s.touches with
  | [] => s
  | cur :: _ =>
    let dt := now - s.velocity.timestamp
    if 0 < dt ∧ dt < 100 then
      { s with velocity := ⟨(cur.x - s.velocity.x) / dt * 16.67,
                            (cur.y - s.velocity.y) / dt * 16.67, now⟩ }
    else
      { s with velocity := ⟨cur.x, cur.y, now⟩ }

/-- `startMomentum`: when momentum is enabled, stop any existing momentum and
schedule the animation callback with captured locals
`velocityX = this.velocity.x`, `velocityY = this.velocity.y`, `lastX = 0`,
`lastY = 0` (read after `stopMomentum` has already reset `this.velocity`). -/
def startMomentum (s : CamState) : CamState :=
  if s.momentumEnabled = false then s else
  let s1 := stopMomentum s
  { s1 with momentum := Option.some ⟨s1.velocity.x, s1.velocity.y, 0, 0⟩ }

/-- One invocation of the scheduled `animate` callback.  It only runs while a
callback is scheduled; it applies friction, stops below the minimum velocity,
otherwise emits a rotate command when the step delta exceeds 0.01 on either
axis and reschedules itself. -/
noncomputable def momentumFrame (s : CamState) : CamState × List CamCall :=
  match s.momentum with
  | Option.none => (s, [])
  | Option.some m =>
    let vx := m.velocityX * MOMENTUM_FRICTION
    let vy := m.velocityY * MOMENTUM_FRICTION
    if |vx| < MOMENTUM_MIN_VELOCITY ∧ |vy| < MOMENTUM_MIN_VELOCITY then
      (stopMomentum s, [])
    else
      let dx := vx - m.lastX
      let dy := vy - m.lastY
      let calls :=
        if |dx| > 0.01 ∨ |dy| > 0.01 then
          [CamCall.rotate (dx * s.rotationSensitivity) (dy * s.rotationSensitivity)]
        else []
      ({ s with momentum := Option.some ⟨vx, vy, vx, vy⟩ }, calls)

/-- Iterated animation frames: the state after `n` frames together with all
camera calls emitted by those frames. -/
noncomputable def momentumRun (s : CamState) : ℕ → CamState × List CamCall
  | 0 => (s, [])
  | n + 1 =>
    let r := momentumRun s n
    let f := momentumFrame r.1
    (f.1, r.2 ++ f.2)

/-- The camera calls emitted by animation frame `k + 1` (the frame that runs
on the state reached after `k` frames). -/
noncomputable def frameCalls (s : CamState) (k : ℕ) : List CamCall :=
  (momentumFrame (momentumRun s k).1).2

/-- `handleTouchEnd`: when enabled, first compute the exit velocity and start
momentum for a single-touch rotate release, then delete the ended touches,
rebuild the map from the remaining event touches, and reclassify. -/
noncomputable def camHandleTouchEnd (s : CamState) (changed : List Touch) (ev : List Touch)
    (now : ℝ) : CamState :=
  if s.enabled = false then s else
  let s1 :=
    if s.momentumEnabled = true ∧ s.gestureType = GestureType.rotate ∧
        s.touches.length = 1 then
      startMomentum (calculateVelocity s now)
    else s
  let s2 := { s1 with
    touches := changed.foldl
      (fun (ts : List CamTouchPoint) (t : Touch) => ts.filter (fun q => q.id ≠ t.id))
      s1.touches }
  let s3 := { s2 with touches := rebuildTouches ev now }
  updateGestureType s3

/-! ### TouchBlockController -/

/-- Tracked touch of TouchBlockController, with its sticky `moved` flag. -/
structure TBTouch where
  x : ℝ
  y : ℝ
  startX : ℝ
  startY : ℝ
  timestamp : ℝ
  moved : Bool

/-- The pending long-press timer of TouchBlockController: the coordinates
captured at `startLongPressTimer` and the time it was set. -/
structure TBTimer where
  x : ℝ
  y : ℝ
  setAt : ℝ

/-- Calls issued by TouchBlockController to its collaborators: world edits
from a resolved tap, long-press callbacks, haptic feedback, and the visual
feedback token created on touch start. -/
inductive TBOut where
  | place (x y : ℝ) (blockType : ℕ)
  | remove (x y : ℝ)
  | longPress (x y : ℝ)
  | vibrate
  | feedback (x y : ℝ)

/-- Mutable state of TouchBlockController.  `world` abstracts the
`getBlockAtPosition` collaborator; block type 0 is `BlockType.AIR`. -/
structure TBCState where
  enabled : Bool
  currentTouch : Option TBTouch
  touchCount : ℕ
  currentBlock : ℕ
  quickDeleteMode : Bool
  longPressTimer : Option TBTimer
  tapMovementThreshold : ℝ
  tapDurationThreshold : ℝ
  longPressDuration : ℝ
  rectLeft : ℝ
  rectTop : ℝ

/-- State established by the constructor of TouchBlockController (block type
1 is `BlockType.GRASS`), for a canvas whose bounding rectangle has the given
offsets. -/
def tbcInit (rectLeft rectTop : ℝ) : TBCState where
  enabled := true
  currentTouch := Option.none
  touchCount := 0
  currentBlock := 1
  quickDeleteMode := false
  longPressTimer := Option.none
  tapMovementThreshold := 10
  tapDurationThreshold := 300
  longPressDuration := 500
  rectLeft := rectLeft
  rectTop := rectTop

/-- `cancelLongPress`: clear any pending long-press timer. -/
def cancelLongPress (s : TBCState) : TBCState :=
  { s with longPressTimer := Option.none }

/-- `startLongPressTimer`: cancel any pending timer and set a fresh one
capturing the given coordinates. -/
def startLongPressTimer (s : TBCState) (x y now : ℝ) : TBCState :=
  { cancelLongPress s with longPressTimer := Option.some ⟨x, y, now⟩ }

/-- `handleTouchStart` of TouchBlockController: record the touch count; with
other than one touch just cancel the long-press timer; with exactly one touch
create a fresh candidate, show the feedback token and arm the timer. -/
def tbcHandleTouchStart (s : TBCState) (touches : List Touch) (now : ℝ) :
    TBCState × List TBOut :=
  if s.enabled = false then (s, []) else
  let s1 := { s with touchCount := touches.length }
  if touches.length ≠ 1 then (cancelLongPress s1, []) else
  match touches with
  | [] => (s1, [])
  | t :: _ =>
    let x := t.x - s1.rectLeft
    let y := t.y - s1.rectTop
    let s2 := { s1 with currentTouch := Option.some ⟨x, y, x, y, now, false⟩ }
    let s3 := startLongPressTimer s2 x y now
    (s3, [TBOut.feedback t.x t.y])

/-- `handleTouchMove` of TouchBlockController: with a live candidate and
exactly one touch, set the sticky `moved` flag and cancel the long-press
timer once the distance from the start position exceeds the movement
threshold, then update the current position. -/
noncomputable def tbcHandleTouchMove (s : TBCState) (touches : List Touch) (_now : ℝ) :
    TBCState :=
  if s.enabled = false then s else
  match s.currentTouch with
  | Option.none => s
  | Option.some ct =>
    let s1 := { s with touchCount := touches.length }
    if touches.length ≠ 1 then s1 else
    match touches with
    | [] => s1
    | t :: _ =>
      let x := t.x - s1.rectLeft
      let y := t.y - s1.rectTop
      let distance := Real.sqrt ((x - ct.startX) * (x - ct.startX) +
        (y - ct.startY) * (y - ct.startY))
      let p :=
        if distance > s1.tapMovementThreshold then
          ({ ct with moved := true }, cancelLongPress s1)
        else (ct, s1)
      { p.2 with currentTouch := Option.some { p.1 with x := x, y := y } }

/-- `handleTap`: query the world at the tap position; remove a non-air block,
otherwise place the currently selected block. -/
def tbcHandleTap (s : TBCState) (world : ℝ → ℝ → ℕ) (x y : ℝ) : List TBOut :=
  if world x y ≠ 0 then [TBOut.remove x y] else [TBOut.place x y s.currentBlock]

/-- `handleTouchEnd` of TouchBlockController: cancel the timer, record the
remaining touch count; when touches remain or no candidate is live, clear the
candidate and quick-delete mode; otherwise resolve the candidate to a tap when
it never moved and its duration is under the tap threshold. -/
noncomputable def tbcHandleTouchEnd (s : TBCState) (world : ℝ → ℝ → ℕ)
    (changed : List Touch) (remaining : ℕ) (now : ℝ) : TBCState × List TBOut :=
  if s.enabled = false then (s, []) else
  let s1 := cancelLongPress s
  let s2 := { s1 with touchCount := remaining }
  if s2.touchCount > 0 ∨ s2.currentTouch.isNone = true then
    ({ s2 with currentTouch := Option.none, quickDeleteMode := false }, [])
  else
    match s2.currentTouch, changed with
    | Option.some ct, t :: _ =>
      let x := t.x - s2.rectLeft
      let y := t.y - s2.rectTop
      let duration := now - ct.timestamp
      let isTap := ct.moved = false ∧ duration < s2.tapDurationThreshold
      let outs := if isTap then tbcHandleTap s2 world x y else []
      ({ s2 with currentTouch := Option.none, quickDeleteMode := false }, outs)
    | _, _ =>
      ({ s2 with currentTouch := Option.none, quickDeleteMode := false }, [])

/-- The long-press timer callback of TouchBlockController firing: it runs only
while the timer is pending, and does nothing when the candidate is gone or has
moved; otherwise it enters quick-delete mode and invokes the long-press
callbacks with the coordinates captured when the timer was armed. -/
def tbcLongPressFire (s : TBCState) : TBCState × List TBOut :=
  match s.longPressTimer with
  | Option.none => (s, [])
  | Option.some timer =>
    let s1 := { s with longPressTimer := Option.none }
    match s1.currentTouch with
    | Option.none => (s1, [])
    | Option.some ct =>
      if ct.moved = true then (s1, [])
      else
        ({ s1 with quickDeleteMode := true },
          [TBOut.longPress timer.x timer.y, TBOut.vibrate])

/-! ### TouchManager -/

/-- Tracked touch point of TouchManager. -/
structure TMPoint where
  id : ℕ
  x : ℝ
  y : ℝ
  startX : ℝ
  startY : ℝ
  timestamp : ℝ

/-- Events emitted by TouchManager to its registered callbacks. -/
inductive TMOut where
  | tap (x y : ℝ)
  | longPress (x y : ℝ)
  | drag (deltaX deltaY : ℝ) (fingerCount : ℕ) (x y : ℝ)
  | pinch (scale deltaScale centerX centerY : ℝ)

/-- Mutable state of TouchManager: the insertion-ordered map of active
touches, the set of pending long-press timers keyed by touch id, and the
canvas rectangle offsets. -/
structure TMState where
  activeTouches : List TMPoint
  longPressTimers : List ℕ
  rectLeft : ℝ
  rectTop : ℝ

/-- State established by the constructor of TouchManager. -/
def tmInit (rectLeft rectTop : ℝ) : TMState where
  activeTouches := []
  longPressTimers := []
  rectLeft := rectLeft
  rectTop := rectTop

/-- `Map.set` on the active-touch map of TouchManager. -/
def tmSet (ts : List TMPoint) (p : TMPoint) : List TMPoint :=
  if ts.any (fun q => q.id = p.id) then
    ts.map (fun q => if q.id = p.id then p else q)
  else
    ts ++ [p]

/-- `Map.set` on the long-press timer map (only the key set matters for the
pending/cancelled status of a touch id). -/
def tmTimerSet (l : List ℕ) (id : ℕ) : List ℕ :=
  if l.any (fun q => q = id) then l else l ++ [id]

/-- `handleTouchStart` of TouchManager: store a fresh touch point for every
touch of the event and arm a long-press timer for each. -/
def tmHandleTouchStart (s : TMState) (touches : List Touch) (now : ℝ) : TMState :=
  touches.foldl
    (fun (st : TMState) (t : Touch) =>
      let x := t.x - st.rectLeft
      let y := t.y - st.rectTop
      { st with
        activeTouches := tmSet st.activeTouches ⟨t.id, x, y, x, y, now⟩,
        longPressTimers := tmTimerSet st.longPressTimers t.id })
    s

/-- `cancelLongPressTimer` of TouchManager. -/
def tmCancelTimer (s : TMState) (id : ℕ) : TMState :=
  { s with longPressTimers := s.longPressTimers.filter (fun q => q ≠ id) }

/-- `handleTwoFingerGestures`: from the current event positions and the stored
previous positions of the two touches, emit a pinch event when the previous
distance is positive, and a two-finger drag event when the midpoint moved by
more than 0.1 on either axis. -/
noncomputable def tmTwoFingerGestures (s : TMState) (t1 t2 : Touch) : List TMOut :=
  let x1 := t1.x - s.rectLeft
  let y1 := t1.y - s.rectTop
  let x2 := t2.x - s.rectLeft
  let y2 := t2.y - s.rectTop
  let distance := Real.sqrt ((x2 - x1) ^ 2 + (y2 - y1) ^ 2)
  let centerX := (x1 + x2) / 2
  let centerY := (y1 + y2) / 2
  match s.activeTouches.find? (fun q => q.id = t1.id),
        s.activeTouches.find? (fun q => q.id = t2.id) with
  | Option.some tp1, Option.some tp2 =>
    let previousDistance := Real.sqrt ((tp2.x - tp1.x) ^ 2 + (tp2.y - tp1.y) ^ 2)
    let pinchCalls :=
      if previousDistance > 0 then
        [TMOut.pinch (distance / previousDistance) (distance / previousDistance - 1)
          centerX centerY]
      else []
    let deltaX := (x1 + x2) / 2 - (tp1.x + tp2.x) / 2
    let deltaY := (y1 + y2) / 2 - (tp1.y + tp2.y) / 2
    let dragCalls :=
      if |deltaX| > 0.1 ∨ |deltaY| > 0.1 then
        [TMOut.drag deltaX deltaY 2 centerX centerY]
      else []
    pinchCalls ++ dragCalls
  | _, _ => []

/-- The second pass of `handleTouchMove` of TouchManager over one event touch:
add a missing touch point, otherwise cancel the long-press timer once the
total distance from the start exceeds the threshold and update the position. -/
noncomputable def tmMoveUpdate (s : TMState) (t : Touch) (now : ℝ) : TMState :=
  let x := t.x - s.rectLeft
  let y := t.y - s.rectTop
  match s.activeTouches.find? (fun q => q.id = t.id) with
  | Option.none =>
    { s with activeTouches := tmSet s.activeTouches ⟨t.id, x, y, x, y, now⟩ }
  | Option.some tp =>
    let totalDistance := Real.sqrt ((x - tp.startX) ^ 2 + (y - tp.startY) ^ 2)
    let s1 := if totalDistance > 10 then tmCancelTimer s tp.id else s
    let updated := s1.activeTouches.map
      (fun q => if q.id = t.id then { q with x := x, y := y } else q)
    { s1 with activeTouches := updated }

/-- `handleTouchMove` of TouchManager: first detect gestures against the
stored positions (single-finger drag or two-finger pinch/pan), then update the
stored positions. -/
noncomputable def tmHandleTouchMove (s : TMState) (touches : List Touch) (now : ℝ) :
    TMState × List TMOut :=
  match touches with
  | [] => (s, [])
  | t1 :: rest =>
    let calls :=
      if touches.length = 1 then
        match s.activeTouches.find? (fun q => q.id = t1.id) with
        | Option.none => []
        | Option.some tp =>
          let x := t1.x - s.rectLeft
          let y := t1.y - s.rectTop
          let deltaX := x - tp.x
          let deltaY := y - tp.y
          if |deltaX| > 0.1 ∨ |deltaY| > 0.1 then
            [TMOut.drag deltaX deltaY 1 x y]
          else []
      else if touches.length = 2 then
        match rest with
        | t2 :: _ => tmTwoFingerGestures s t1 t2
        | [] => []
      else []
    (touches.foldl (fun st t => tmMoveUpdate st t now) s, calls)

/-- `handleTouchEnd` of TouchManager over one changed touch: skip unknown ids;
cancel the long-press timer; emit a tap when the duration is under 300 ms and
the release point is within 10 px of the start position; delete the touch. -/
noncomputable def tmEndOne (s : TMState) (t : Touch) (now : ℝ) : TMState × List TMOut :=
  match s.activeTouches.find? (fun q => q.id = t.id) with
  | Option.none => (s, [])
  | Option.some tp =>
    let s1 := tmCancelTimer s t.id
    let duration := now - tp.timestamp
    let distance := Real.sqrt ((t.x - s1.rectLeft - tp.startX) ^ 2 +
      (t.y - s1.rectTop - tp.startY) ^ 2)
    let calls :=
      if duration < 300 ∧ distance < 10 then [TMOut.tap tp.startX tp.startY] else []
    ({ s1 with activeTouches := s1.activeTouches.filter (fun q => q.id ≠ t.id) }, calls)

/-- `handleTouchEnd` of TouchManager: process every changed touch in order. -/
noncomputable def tmHandleTouchEnd (s : TMState) (changed : List Touch) (now : ℝ) :
    TMState × List TMOut :=
  changed.foldl
    (fun (p : TMState × List TMOut) (t : Touch) =>
      let r := tmEndOne p.1 t now
      (r.1, p.2 ++ r.2))
    (s, [])

/-! ### Listener dispatch of TouchManager

A registered listener is external code that either returns normally or
throws.  `forEach` over the listener array has no exception handling, so a
throw propagates immediately out of the dispatch. -/

/-- A registered listener: its registry index and whether invoking it throws. -/
structure Listener where
  id : ℕ
  throws : Bool

/-- `triggerTapCallbacks` (`this.tapCallbacks.forEach(cb => cb(event))`):
returns the ids of the listeners actually invoked, in order, together with
`true` when the dispatch ran to completion and `false` when a listener threw
and aborted it.  `triggerLongPressCallbacks`, `triggerDragCallbacks` and
`triggerPinchCallbacks` have the identical body. -/
def triggerTapCallbacks : List Listener → List ℕ × Bool
  | [] => ([], true)
  | c :: rest =>
    if c.throws = true then ([c.id], false)
    else
      let r := triggerTapCallbacks rest
      (c.id :: r.1, r.2)

/-! ### Shared lemmas -/

/-- `updateGestureType` only rewrites the `gestureType` field. -/
lemma updateGestureType_shape (s : CamState) :
    ∃ g, updateGestureType s = { s with gestureType := g } := by
  unfold updateGestureType
  repeat' split
  all_goals try dsimp only
  all_goals repeat' split
  all_goals exact ⟨_, rfl⟩

lemma updateGestureType_momentum (s : CamState) :
    (updateGestureType s).momentum = s.momentum := by
  obtain ⟨g, hg⟩ := updateGestureType_shape s
  rw [hg]

lemma updateGestureType_velocity (s : CamState) :
    (updateGestureType s).velocity = s.velocity := by
  obtain ⟨g, hg⟩ := updateGestureType_shape s
  rw [hg]

lemma updateGestureType_touches (s : CamState) :
    (updateGestureType s).touches = s.touches := by
  obtain ⟨g, hg⟩ := updateGestureType_shape s
  rw [hg]

lemma updateGestureType_previousDistance (s : CamState) :
    (updateGestureType s).previousDistance = s.previousDistance := by
  obtain ⟨g, hg⟩ := updateGestureType_shape s
  rw [hg]

/-- An unscheduled momentum callback never runs: the frame transition is the
identity and issues no camera calls. -/
lemma momentumFrame_none (s : CamState) (h : s.momentum = Option.none) :
    momentumFrame s = (s, []) := by
  unfold momentumFrame
  rw [h]

/-- Distance between two touch points on a common horizontal line. -/
lemma calculateDistance_horizontal (i1 i2 : Nat) (x1 x2 y ts1 ts2 : ℝ) :
    calculateDistance ⟨i1, x1, y, ts1⟩ ⟨i2, x2, y, ts2⟩ = |x2 - x1| := by
  unfold calculateDistance
  simp only [sub_self, mul_zero, add_zero]
  rw [show (x2 - x1) * (x2 - x1) = (x2 - x1) ^ 2 by ring, Real.sqrt_sq_eq_abs]

lemma camHandleTouchStart_momentum (s : CamState) (ev : List Touch) (now : ℝ)
    (h : s.enabled = true) : (camHandleTouchStart s ev now).momentum = Option.none := by
  unfold camHandleTouchStart
  simp only [h, Bool.true_eq_false, if_false]
  split
  · split
    · simp [updateGestureType_momentum, stopMomentum]
    · simp [updateGestureType_momentum, stopMomentum]
  · simp [updateGestureType_momentum, stopMomentum]

lemma camHandleTouchStart_velocity (s : CamState) (ev : List Touch) (now : ℝ)
    (h : s.enabled = true) :
    (camHandleTouchStart s ev now).velocity = ⟨0, 0, 0⟩ := by
  unfold camHandleTouchStart
  simp only [h, Bool.true_eq_false, if_false]
  split
  · split
    · simp [updateGestureType_velocity, stopMomentum]
    · simp [updateGestureType_velocity, stopMomentum]
  · simp [updateGestureType_velocity, stopMomentum]

/-- With no scheduled callback, any number of animation frames leaves the
state unchanged and emits nothing. -/
lemma momentumRun_none (s : CamState) (h : s.momentum = Option.none) (n : ℕ) :
    momentumRun s n = (s, []) := by
  induction n with
  | zero => rfl
  | succ n ih =>
    unfold momentumRun
    rw [ih]
    simp only
    rw [momentumFrame_none s h]
    simp

/-- C7.  If a momentum session is active and a new touch-start event is
processed while the controller is enabled, the scheduled animation callback is
cancelled synchronously within the touch-start handler and the stored velocity
is cleared, so no momentum-driven rotateCamera call can occur after that
event: every later animation frame leaves the state unchanged and issues no
camera calls. -/
theorem touchStart_cancels_momentum (s : CamState) (ev : List Touch) (now : ℝ)
    (h : s.enabled = true) :
    (camHandleTouchStart s ev now).momentum = Option.none ∧
    (camHandleTouchStart s ev now).velocity = ⟨0, 0, 0⟩ ∧
    ∀ n : ℕ, momentumRun (camHandleTouchStart s ev now) n =
      (camHandleTouchStart s ev now, []) := by
  refine ⟨camHandleTouchStart_momentum s ev now h,
         camHandleTouchStart_velocity s ev now h, fun n => ?_⟩
  exact momentumRun_none _ (camHandleTouchStart_momentum s ev now h) n

/-- Witness for C7 at a concrete state with an active momentum session. -/
theorem touchStart_cancels_momentum_witness :
    (camHandleTouchStart
      { camInit with momentum := Option.some ⟨50, 20, 0, 0⟩ } [⟨0, 30, 40⟩] 1000).momentum
      = Option.none ∧
    (camHandleTouchStart
      { camInit with momentum := Option.some ⟨50, 20, 0, 0⟩ } [⟨0, 30, 40⟩] 1000).velocity
      = ⟨0, 0, 0⟩ ∧
    ∀ n : ℕ, momentumRun (camHandleTouchStart
      { camInit with momentum := Option.some ⟨50, 20, 0, 0⟩ } [⟨0, 30, 40⟩] 1000) n =
      (camHandleTouchStart
        { camInit with momentum := Option.some ⟨50, 20, 0, 0⟩ } [⟨0, 30, 40⟩] 1000, []) :=
  touchStart_cancels_momentum _ _ _ rfl

/-- `calculateVelocity` only rewrites the `velocity` field. -/
lemma calculateVelocity_shape (s : CamState) (now : ℝ) :
    ∃ v, calculateVelocity s now = { s with velocity := v } := by
  unfold calculateVelocity
  repeat' split
  all_goals try dsimp only
  all_goals repeat' split
  all_goals exact ⟨_, rfl⟩

/-- `startMomentum` reads `this.velocity` only after `stopMomentum` has reset
it, so every momentum session is seeded with zero velocity and zero lasts, and
the stored velocity is left cleared. -/
lemma startMomentum_zero (s : CamState) (h : s.momentumEnabled = true) :
    (startMomentum s).momentum = Option.some ⟨0, 0, 0, 0⟩ ∧
    (startMomentum s).velocity = ⟨0, 0, 0⟩ := by
  unfold startMomentum stopMomentum
  simp [h]

/-- A momentum session seeded with zero velocity stops at its first animation
frame without emitting a camera call. -/
lemma momentumFrame_zero_seed (s : CamState)
    (h : s.momentum = Option.some ⟨0, 0, 0, 0⟩) :
    momentumFrame s = (stopMomentum s, []) := by
  unfold momentumFrame
  rw [h]
  simp only
  rw [if_pos]
  constructor <;> · rw [MOMENTUM_FRICTION, MOMENTUM_MIN_VELOCITY]; norm_num

lemma momentumRun_zero_seed_succ (s : CamState)
    (h : s.momentum = Option.some ⟨0, 0, 0, 0⟩) (n : ℕ) :
    momentumRun s (n + 1) = (stopMomentum s, []) := by
  induction n with
  | zero =>
    unfold momentumRun
    simp only [momentumRun]
    rw [momentumFrame_zero_seed s h]
    simp
  | succ n ih =>
    unfold momentumRun
    rw [ih]
    simp only
    rw [momentumFrame_none (stopMomentum s) rfl]
    simp

/-- No animation frame of a zero-seeded momentum session ever emits a camera
call. -/
lemma momentumRun_zero_seed_calls (s : CamState)
    (h : s.momentum = Option.some ⟨0, 0, 0, 0⟩) (n : ℕ) :
    (momentumRun s n).2 = [] := by
  cases n with
  | zero => rfl
  | succ n => rw [momentumRun_zero_seed_succ s h n]

/-- C1.  On a Rotate-gesture release whose inter-sample time delta is
degenerate (not positive or at least 100 ms), the momentum phase started at
that release begins with zero velocity — the stored velocity record is left
reset to zero — and no momentum-driven rotateCamera call is ever issued by
that session. -/
theorem degenerate_release_zero_momentum (s : CamState) (changed ev : List Touch)
    (now : ℝ) (hen : s.enabled = true) (hm : s.momentumEnabled = true)
    (hg : s.gestureType = GestureType.rotate) (hone : s.touches.length = 1)
    (hdt : ¬(0 < now - s.velocity.timestamp ∧ now - s.velocity.timestamp < 100)) :
    (camHandleTouchEnd s changed ev now).velocity = ⟨0, 0, 0⟩ ∧
    (camHandleTouchEnd s changed ev now).momentum = Option.some ⟨0, 0, 0, 0⟩ ∧
    ∀ n : ℕ, (momentumRun (camHandleTouchEnd s changed ev now) n).2 = [] := by
  obtain ⟨v, hv⟩ := calculateVelocity_shape s now
  have hsm := startMomentum_zero (calculateVelocity s now) (by rw [hv]; exact hm)
  have hend : (camHandleTouchEnd s changed ev now).velocity = ⟨0, 0, 0⟩ ∧
      (camHandleTouchEnd s changed ev now).momentum = Option.some ⟨0, 0, 0, 0⟩ := by
    unfold camHandleTouchEnd
    simp only [hen, Bool.true_eq_false, if_false]
    rw [if_pos ⟨hm, hg, hone⟩]
    constructor
    · rw [updateGestureType_velocity]
      exact hsm.2
    · rw [updateGestureType_momentum]
      exact hsm.1
  exact ⟨hend.1, hend.2, fun n => momentumRun_zero_seed_calls _ hend.2 n⟩

/-- Witness for C1: a single rotate touch at (100, 50) released 1050 ms after
the zero-initialized velocity timestamp, a degenerate time delta. -/
theorem degenerate_release_zero_momentum_witness :
    (camHandleTouchEnd
      { camInit with touches := [⟨0, 100, 50, 1000⟩],
                     gestureType := GestureType.rotate }
      [⟨0, 100, 50⟩] [] 1050).velocity = ⟨0, 0, 0⟩ ∧
    (camHandleTouchEnd
      { camInit with touches := [⟨0, 100, 50, 1000⟩],
                     gestureType := GestureType.rotate }
      [⟨0, 100, 50⟩] [] 1050).momentum = Option.some ⟨0, 0, 0, 0⟩ ∧
    ∀ n : ℕ, (momentumRun (camHandleTouchEnd
      { camInit with touches := [⟨0, 100, 50, 1000⟩],
                     gestureType := GestureType.rotate }
      [⟨0, 100, 50⟩] [] 1050) n).2 = [] :=
  degenerate_release_zero_momentum _ _ _ _ rfl rfl rfl rfl
    (by intro hc; have := hc.2; norm_num [camInit] at this)

/-- C3 (amended).  A 0→2 contact touch-start is classified Pinch whenever the
stored `previousDistance` is still zero at classification time — in
particular on the first such transition after construction. -/
theorem zeroToTwo_pinch_when_prev_zero (s : CamState) (t1 t2 : Touch) (now : ℝ)
    (hen : s.enabled = true) (hemp : s.touches = []) (hpd : s.previousDistance = 0)
    (hid : t1.id ≠ t2.id) :
    (camHandleTouchStart s [t1, t2] now).gestureType = GestureType.pinch := by
  unfold camHandleTouchStart
  simp only [hen, Bool.true_eq_false, if_false]
  simp [stopMomentum, hemp, hpd, mapSet, hid, updateGestureType]

/-- Witness for the amended C3 at the freshly constructed controller. -/
theorem zeroToTwo_pinch_when_prev_zero_witness :
    (camHandleTouchStart camInit [⟨0, 0, 0⟩, ⟨1, 100, 0⟩] 0).gestureType =
      GestureType.pinch :=
  zeroToTwo_pinch_when_prev_zero camInit ⟨0, 0, 0⟩ ⟨1, 100, 0⟩ 0 rfl rfl rfl
    (by decide)

/-- Counterexample to C3 as stated: after a first two-contact session ends,
`previousDistance` is never reset, so a later direct 0→2 transition sees a
nonzero `previousDistance` (here 100) and is classified Pan, not Pinch. -/
theorem zeroToTwo_not_always_pinch_cex :
    (camHandleTouchEnd
        (camHandleTouchStart camInit [⟨0, 0, 0⟩, ⟨1, 100, 0⟩] 0)
        [⟨0, 0, 0⟩, ⟨1, 100, 0⟩] [] 50).touches = [] ∧
    (camHandleTouchEnd
        (camHandleTouchStart camInit [⟨0, 0, 0⟩, ⟨1, 100, 0⟩] 0)
        [⟨0, 0, 0⟩, ⟨1, 100, 0⟩] [] 50).previousDistance = 100 ∧
    (camHandleTouchStart
        (camHandleTouchEnd
          (camHandleTouchStart camInit [⟨0, 0, 0⟩, ⟨1, 100, 0⟩] 0)
          [⟨0, 0, 0⟩, ⟨1, 100, 0⟩] [] 50)
        [⟨0, 0, 0⟩, ⟨1, 104, 0⟩] 100).gestureType = GestureType.pan := by
  have h1 : camHandleTouchStart camInit [⟨0, 0, 0⟩, ⟨1, 100, 0⟩] 0 =
      { camInit with touches := [⟨0, 0, 0, 0⟩, ⟨1, 100, 0, 0⟩],
                     gestureType := GestureType.pinch,
                     previousDistance := 100, previousMidpoint := (50, 0) } := by
    unfold camHandleTouchStart
    norm_num [camInit, stopMomentum, mapSet, updateGestureType,
      calculateDistance_horizontal, calculateMidpoint]
  have h2 : camHandleTouchEnd
      (camHandleTouchStart camInit [⟨0, 0, 0⟩, ⟨1, 100, 0⟩] 0)
      [⟨0, 0, 0⟩, ⟨1, 100, 0⟩] [] 50 =
      { camInit with touches := [], gestureType := GestureType.none,
                     previousDistance := 100, previousMidpoint := (50, 0) } := by
    rw [h1]
    unfold camHandleTouchEnd
    norm_num [camInit, rebuildTouches, updateGestureType]
  refine ⟨by rw [h2], by rw [h2], ?_⟩
  rw [h2]
  unfold camHandleTouchStart
  norm_num [camInit, stopMomentum, mapSet, updateGestureType,
    calculateDistance_horizontal, calculateMidpoint]

lemma updateGestureType_previousMidpoint (s : CamState) :
    (updateGestureType s).previousMidpoint = s.previousMidpoint := by
  obtain ⟨g, hg⟩ := updateGestureType_shape s
  rw [hg]

lemma updateGestureType_zoomSensitivity (s : CamState) :
    (updateGestureType s).zoomSensitivity = s.zoomSensitivity := by
  obtain ⟨g, hg⟩ := updateGestureType_shape s
  rw [hg]

lemma updateGestureType_panSensitivity (s : CamState) :
    (updateGestureType s).panSensitivity = s.panSensitivity := by
  obtain ⟨g, hg⟩ := updateGestureType_shape s
  rw [hg]

lemma moveClassified_touches (s : CamState) (ev : List Touch) (now : ℝ) :
    (moveClassified s ev now).touches = rebuildTouches ev now := by
  unfold moveClassified
  rw [updateGestureType_touches]

lemma moveClassified_previousDistance (s : CamState) (ev : List Touch) (now : ℝ) :
    (moveClassified s ev now).previousDistance = s.previousDistance := by
  unfold moveClassified
  rw [updateGestureType_previousDistance]

lemma moveClassified_previousMidpoint (s : CamState) (ev : List Touch) (now : ℝ) :
    (moveClassified s ev now).previousMidpoint = s.previousMidpoint := by
  unfold moveClassified
  rw [updateGestureType_previousMidpoint]

lemma moveClassified_zoomSensitivity (s : CamState) (ev : List Touch) (now : ℝ) :
    (moveClassified s ev now).zoomSensitivity = s.zoomSensitivity := by
  unfold moveClassified
  rw [updateGestureType_zoomSensitivity]

lemma moveClassified_panSensitivity (s : CamState) (ev : List Touch) (now : ℝ) :
    (moveClassified s ev now).panSensitivity = s.panSensitivity := by
  unfold moveClassified
  rw [updateGestureType_panSensitivity]

/-- A move sample classified Pinch with two touches dispatches to
`handlePinchGesture`. -/
lemma camHandleTouchMove_pinch (s : CamState) (ev : List Touch) (now : ℝ)
    (hen : s.enabled = true)
    (hg : (moveClassified s ev now).gestureType = GestureType.pinch)
    (hlen : (rebuildTouches ev now).length = 2) :
    camHandleTouchMove s ev now = handlePinchGesture (moveClassified s ev now) := by
  unfold camHandleTouchMove
  simp only [hen, Bool.true_eq_false, if_false]
  rw [if_neg (by rw [hg]; rintro ⟨h, -⟩; exact absurd h (by decide)),
      if_pos ⟨hg, by rw [moveClassified_touches]; exact hlen⟩]

/-- A move sample classified Pan with two touches dispatches to
`handlePanGesture`. -/
lemma camHandleTouchMove_pan (s : CamState) (ev : List Touch) (now : ℝ)
    (hen : s.enabled = true)
    (hg : (moveClassified s ev now).gestureType = GestureType.pan)
    (hlen : (rebuildTouches ev now).length = 2) :
    camHandleTouchMove s ev now = handlePanGesture (moveClassified s ev now) := by
  unfold camHandleTouchMove
  simp only [hen, Bool.true_eq_false, if_false]
  rw [if_neg (by rw [hg]; rintro ⟨h, -⟩; exact absurd h (by decide)),
      if_neg (by rw [hg]; rintro ⟨h, -⟩; exact absurd h (by decide)),
      if_pos ⟨hg, by rw [moveClassified_touches]; exact hlen⟩]

/-- C9.  On every move sample classified Pinch with a positive stored previous
distance, `zoomCamera` is called with exactly
`-(distance - previousDistance) * 0.01 * zoomSensitivity`, and when the
inter-contact distance decreased and the zoom sensitivity is positive this
argument is strictly positive. -/
theorem pinch_zoom_sign (s : CamState) (ev : List Touch) (now : ℝ)
    (p q : CamTouchPoint) (hen : s.enabled = true)
    (ht : rebuildTouches ev now = [p, q])
    (hg : (moveClassified s ev now).gestureType = GestureType.pinch)
    (hpd : 0 < s.previousDistance) :
    (camHandleTouchMove s ev now).2 =
      [CamCall.zoom (-(calculateDistance p q - s.previousDistance) * 0.01 *
        s.zoomSensitivity)] ∧
    (calculateDistance p q < s.previousDistance → 0 < s.zoomSensitivity →
      0 < -(calculateDistance p q - s.previousDistance) * 0.01 * s.zoomSensitivity) := by
  have hdisp := camHandleTouchMove_pinch s ev now hen hg (by rw [ht]; rfl)
  constructor
  · rw [hdisp]
    unfold handlePinchGesture
    rw [show (moveClassified s ev now).touches = p :: q :: ([] : List CamTouchPoint) by
          rw [moveClassified_touches, ht]]
    simp only
    rw [if_pos (by rw [moveClassified_previousDistance]; exact hpd)]
    rw [moveClassified_previousDistance, moveClassified_zoomSensitivity]
  · intro hlt hzs
    have hneg : calculateDistance p q - s.previousDistance < 0 := by linarith
    have : (0:ℝ) < -(calculateDistance p q - s.previousDistance) := by linarith
    have h001 : (0:ℝ) < 0.01 := by norm_num
    positivity

/-- Witness for C9: the spec scenario, two contacts moving from (100,100) and
(200,100) to (125,100) and (175,100), on the controller state after the
two-contact touch start; `zoomCamera` receives the strictly positive value
0.5. -/
theorem pinch_zoom_sign_witness :
    (camHandleTouchMove
      (camHandleTouchStart camInit [⟨0, 100, 100⟩, ⟨1, 200, 100⟩] 0)
      [⟨0, 125, 100⟩, ⟨1, 175, 100⟩] 16).2 = [CamCall.zoom 0.5] ∧ (0:ℝ) < 0.5 := by
  have h1 : camHandleTouchStart camInit [⟨0, 100, 100⟩, ⟨1, 200, 100⟩] 0 =
      { camInit with touches := [⟨0, 100, 100, 0⟩, ⟨1, 200, 100, 0⟩],
                     gestureType := GestureType.pinch,
                     previousDistance := 100, previousMidpoint := (150, 100) } := by
    unfold camHandleTouchStart
    norm_num [camInit, stopMomentum, mapSet, updateGestureType,
      calculateDistance_horizontal, calculateMidpoint]
  have h2 := pinch_zoom_sign
    (camHandleTouchStart camInit [⟨0, 100, 100⟩, ⟨1, 200, 100⟩] 0)
    [⟨0, 125, 100⟩, ⟨1, 175, 100⟩] 16 ⟨0, 125, 100, 16⟩ ⟨1, 175, 100, 16⟩
    (by rw [h1]; rfl) (by norm_num [rebuildTouches, mapSet])
    (by rw [h1]
        unfold moveClassified updateGestureType
        norm_num [rebuildTouches, mapSet, calculateDistance_horizontal])
    (by rw [h1]; norm_num [camInit])
  rw [h2.1, h1]
  rw [calculateDistance_horizontal]
  norm_num [camInit]

/-- C10.  On every move sample classified Pan with two touches, `panCamera`
is suppressed whenever either coordinate of the stored previous midpoint is
exactly zero, although the stored midpoint is still updated to the current
midpoint; when both coordinates are nonzero, `panCamera` receives the
midpoint delta scaled by the pan sensitivity. -/
theorem pan_zero_midpoint_guard (s : CamState) (ev : List Touch) (now : ℝ)
    (p q : CamTouchPoint) (hen : s.enabled = true)
    (ht : rebuildTouches ev now = [p, q])
    (hg : (moveClassified s ev now).gestureType = GestureType.pan) :
    ((s.previousMidpoint.1 = 0 ∨ s.previousMidpoint.2 = 0) →
      (camHandleTouchMove s ev now).2 = [] ∧
      (camHandleTouchMove s ev now).1.previousMidpoint = calculateMidpoint p q) ∧
    (s.previousMidpoint.1 ≠ 0 → s.previousMidpoint.2 ≠ 0 →
      (camHandleTouchMove s ev now).2 =
        [CamCall.pan (((calculateMidpoint p q).1 - s.previousMidpoint.1) *
            s.panSensitivity)
          (((calculateMidpoint p q).2 - s.previousMidpoint.2) * s.panSensitivity)] ∧
      (camHandleTouchMove s ev now).1.previousMidpoint = calculateMidpoint p q) := by
  have hdisp := camHandleTouchMove_pan s ev now hen hg (by rw [ht]; rfl)
  have htch : (moveClassified s ev now).touches = p :: q :: ([] : List CamTouchPoint) := by
    rw [moveClassified_touches, ht]
  constructor
  · intro hzero
    rw [hdisp]
    unfold handlePanGesture
    rw [htch]
    simp only
    rw [if_neg (by
      rw [moveClassified_previousMidpoint]
      rintro ⟨hx, hy⟩
      rcases hzero with h | h
      · exact hx h
      · exact hy h)]
    refine ⟨?_, ?_⟩ <;> trivial
  · intro hx hy
    rw [hdisp]
    unfold handlePanGesture
    rw [htch]
    simp only
    rw [if_pos (by rw [moveClassified_previousMidpoint]; exact ⟨hx, hy⟩)]
    rw [moveClassified_previousMidpoint, moveClassified_panSensitivity]
    refine ⟨?_, ?_⟩ <;> trivial

/-- Witness for C10: a Pan-classified sample whose stored previous midpoint is
(50, 0) — zero y-coordinate — issues no pan call yet updates the midpoint. -/
theorem pan_zero_midpoint_guard_witness :
    (camHandleTouchMove
      { camInit with previousDistance := 100, previousMidpoint := (50, 0) }
      [⟨0, 0, 0⟩, ⟨1, 104, 0⟩] 16).2 = [] ∧
    (camHandleTouchMove
      { camInit with previousDistance := 100, previousMidpoint := (50, 0) }
      [⟨0, 0, 0⟩, ⟨1, 104, 0⟩] 16).1.previousMidpoint =
      calculateMidpoint ⟨0, 0, 0, 16⟩ ⟨1, 104, 0, 16⟩ :=
  (pan_zero_midpoint_guard
    { camInit with previousDistance := 100, previousMidpoint := (50, 0) }
    [⟨0, 0, 0⟩, ⟨1, 104, 0⟩] 16 ⟨0, 0, 0, 16⟩ ⟨1, 104, 0, 16⟩
    rfl (by norm_num [rebuildTouches, mapSet])
    (by unfold moveClassified updateGestureType
        norm_num [camInit, rebuildTouches, mapSet, calculateDistance_horizontal])).1
    (Or.inr rfl)

/-- Classification of a two-touch state with nonzero stored baseline. -/
lemma moveClassified_two_touch (s : CamState) (ev : List Touch) (now : ℝ)
    (p q : CamTouchPoint) (ht : rebuildTouches ev now = [p, q])
    (hpd : s.previousDistance ≠ 0) :
    (moveClassified s ev now).gestureType =
      (if |calculateDistance p q - s.previousDistance| > 5 then GestureType.pinch
       else GestureType.pan) := by
  unfold moveClassified updateGestureType
  rw [ht]
  simp only [List.length_cons, List.length_nil]
  norm_num [hpd]
  split <;> rfl

/-- C2 (amended).  On a two-touch move sample the pinch/pan decision compares
the current inter-contact distance against the stored `previousDistance`
baseline, not against the distance of the immediately preceding sample: the
sample is Pinch exactly when `|distance - previousDistance| > 5`, a
Pan-classified sample leaves the baseline unchanged, and only a
Pinch-classified sample (or a two-contact touch start) moves the baseline to
the current distance. -/
theorem pinch_pan_baseline (s : CamState) (ev : List Touch) (now : ℝ)
    (p q : CamTouchPoint) (hen : s.enabled = true)
    (ht : rebuildTouches ev now = [p, q]) (hpd : s.previousDistance ≠ 0) :
    ((moveClassified s ev now).gestureType = GestureType.pinch ↔
      |calculateDistance p q - s.previousDistance| > 5) ∧
    ((moveClassified s ev now).gestureType = GestureType.pan →
      (camHandleTouchMove s ev now).1.previousDistance = s.previousDistance) ∧
    ((moveClassified s ev now).gestureType = GestureType.pinch →
      (camHandleTouchMove s ev now).1.previousDistance = calculateDistance p q) := by
  have hcl := moveClassified_two_touch s ev now p q ht hpd
  refine ⟨?_, ?_, ?_⟩
  · rw [hcl]
    by_cases hc : |calculateDistance p q - s.previousDistance| > 5
    · simp [hc]
    · simp [hc]
  · intro hg
    rw [camHandleTouchMove_pan s ev now hen hg (by rw [ht]; rfl)]
    unfold handlePanGesture
    rw [show (moveClassified s ev now).touches = p :: q :: ([] : List CamTouchPoint) by
          rw [moveClassified_touches, ht]]
    simp only
    rw [moveClassified_previousDistance]
  · intro hg
    rw [camHandleTouchMove_pinch s ev now hen hg (by rw [ht]; rfl)]
    unfold handlePinchGesture
    rw [show (moveClassified s ev now).touches = p :: q :: ([] : List CamTouchPoint) by
          rw [moveClassified_touches, ht]]

/-- Witness for the amended C2 on a concrete Pan-classified sample: distance
104 versus baseline 100 stays Pan and keeps the baseline at 100. -/
theorem pinch_pan_baseline_witness :
    ((moveClassified
        { camInit with previousDistance := 100, previousMidpoint := (50, 0) }
        [⟨0, 0, 0⟩, ⟨1, 104, 0⟩] 16).gestureType = GestureType.pinch ↔
      |calculateDistance ⟨0, 0, 0, 16⟩ ⟨1, 104, 0, 16⟩ - (100:ℝ)| > 5) ∧
    ((moveClassified
        { camInit with previousDistance := 100, previousMidpoint := (50, 0) }
        [⟨0, 0, 0⟩, ⟨1, 104, 0⟩] 16).gestureType = GestureType.pan →
      (camHandleTouchMove
        { camInit with previousDistance := 100, previousMidpoint := (50, 0) }
        [⟨0, 0, 0⟩, ⟨1, 104, 0⟩] 16).1.previousDistance = 100) ∧
    ((moveClassified
        { camInit with previousDistance := 100, previousMidpoint := (50, 0) }
        [⟨0, 0, 0⟩, ⟨1, 104, 0⟩] 16).gestureType = GestureType.pinch →
      (camHandleTouchMove
        { camInit with previousDistance := 100, previousMidpoint := (50, 0) }
        [⟨0, 0, 0⟩, ⟨1, 104, 0⟩] 16).1.previousDistance =
        calculateDistance ⟨0, 0, 0, 16⟩ ⟨1, 104, 0, 16⟩) :=
  pinch_pan_baseline
    { camInit with previousDistance := 100, previousMidpoint := (50, 0) }
    [⟨0, 0, 0⟩, ⟨1, 104, 0⟩] 16 ⟨0, 0, 0, 16⟩ ⟨1, 104, 0, 16⟩
    rfl (by norm_num [rebuildTouches, mapSet]) (by norm_num [camInit])

/-- Counterexample to C2 as stated: after a Pan sample at distance 104
(baseline 100), the next sample at distance 107 differs from the preceding
sample's distance by only 3 ≤ 5 — the claim predicts Pan — yet the code
classifies it Pinch because the stored baseline is still 100. -/
theorem pinch_pan_baseline_cex :
    |calculateDistance ⟨0, 107, 0, 32⟩ ⟨1, 0, 0, 32⟩ -
      calculateDistance ⟨0, 104, 0, 16⟩ ⟨1, 0, 0, 16⟩| ≤ 5 ∧
    ((camHandleTouchMove
      ((camHandleTouchMove
        (camHandleTouchStart camInit [⟨0, 0, 0⟩, ⟨1, 100, 0⟩] 0)
        [⟨0, 0, 0⟩, ⟨1, 104, 0⟩] 16).1)
      [⟨0, 0, 0⟩, ⟨1, 107, 0⟩] 32).1).gestureType = GestureType.pinch := by
  constructor
  · rw [calculateDistance_horizontal, calculateDistance_horizontal]
    norm_num
  · have h1 : camHandleTouchStart camInit [⟨0, 0, 0⟩, ⟨1, 100, 0⟩] 0 =
        { camInit with touches := [⟨0, 0, 0, 0⟩, ⟨1, 100, 0, 0⟩],
                       gestureType := GestureType.pinch,
                       previousDistance := 100, previousMidpoint := (50, 0) } := by
      unfold camHandleTouchStart
      norm_num [camInit, stopMomentum, mapSet, updateGestureType,
        calculateDistance_horizontal, calculateMidpoint]
    have h2 : (camHandleTouchMove
        { camInit with touches := [⟨0, 0, 0, 0⟩, ⟨1, 100, 0, 0⟩],
                       gestureType := GestureType.pinch,
                       previousDistance := 100, previousMidpoint := (50, 0) }
        [⟨0, 0, 0⟩, ⟨1, 104, 0⟩] 16).1 =
        { camInit with touches := [⟨0, 0, 0, 16⟩, ⟨1, 104, 0, 16⟩],
                       gestureType := GestureType.pan,
                       previousDistance := 100, previousMidpoint := (52, 0) } := by
      unfold camHandleTouchMove moveClassified updateGestureType handlePanGesture
      norm_num [camInit, rebuildTouches, mapSet, calculateDistance_horizontal,
        calculateMidpoint]
      rw [if_neg (show GestureType.pan = GestureType.pinch → False by decide)]
    rw [h1, h2]
    unfold camHandleTouchMove moveClassified updateGestureType handlePinchGesture
    norm_num [camInit, rebuildTouches, mapSet, calculateDistance_horizontal,
      calculateMidpoint]

/-- C6 (amended).  Listener dispatch has no exception isolation: the
listeners are invoked in registration order up to and including the first one
that throws; its exception aborts the dispatch, so listeners registered after
it are not invoked for the current event.  Only when no registered listener
throws are all listeners invoked and the dispatch completes. -/
theorem listener_throw_aborts_dispatch :
    (∀ (pre post : List Listener) (c : Listener),
      (∀ d ∈ pre, d.throws = false) → c.throws = true →
      triggerTapCallbacks (pre ++ c :: post) =
        (pre.map Listener.id ++ [c.id], false)) ∧
    (∀ cbs : List Listener, (∀ d ∈ cbs, d.throws = false) →
      triggerTapCallbacks cbs = (cbs.map Listener.id, true)) := by
  constructor
  · intro pre post c hpre hc
    induction pre with
    | nil =>
      unfold triggerTapCallbacks
      simp [hc]
    | cons d rest ih =>
      have hd : d.throws = false := hpre d (List.mem_cons_self d rest)
      have hrest : ∀ e ∈ rest, e.throws = false :=
        fun e he => hpre e (List.mem_cons_of_mem d he)
      unfold triggerTapCallbacks
      simp only [List.cons_append, hd, Bool.false_eq_true, if_false]
      rw [ih hrest]
      simp
  · intro cbs hall
    induction cbs with
    | nil => rfl
    | cons d rest ih =>
      have hd : d.throws = false := hall d (List.mem_cons_self d rest)
      have hrest : ∀ e ∈ rest, e.throws = false :=
        fun e he => hall e (List.mem_cons_of_mem d he)
      unfold triggerTapCallbacks
      simp only [hd, Bool.false_eq_true, if_false]
      rw [ih hrest]
      simp

/-- Witness for the amended C6: with listeners 0 (normal), 1 (throws),
2 (normal), dispatch invokes exactly 0 and 1 and aborts. -/
theorem listener_throw_aborts_dispatch_witness :
    triggerTapCallbacks [⟨0, false⟩, ⟨1, true⟩, ⟨2, false⟩] = ([0, 1], false) :=
  listener_throw_aborts_dispatch.1 [⟨0, false⟩] [⟨2, false⟩] ⟨1, true⟩
    (by intro d hd; simp at hd; rw [hd]) rfl

/-- Counterexample to C6 as stated: when the first of two registered tap
listeners throws, the second is not invoked and the dispatch of the current
event does not complete. -/
theorem listener_throw_aborts_dispatch_cex :
    triggerTapCallbacks [⟨0, true⟩, ⟨1, false⟩] = ([0], false) ∧
    (1 : ℕ) ∉ (triggerTapCallbacks [⟨0, true⟩, ⟨1, false⟩]).1 := by
  constructor
  · rfl
  · intro hmem
    rw [show (triggerTapCallbacks [⟨0, true⟩, ⟨1, false⟩]).1 = [0] from rfl] at hmem
    simp at hmem

/-- C4 (amended).  In TouchBlockController the `moved` flag is sticky: once a
move sample exceeds the movement threshold the candidate stays moved for its
lifetime and its release never resolves to a tap, while an unmoved candidate
released alone under the duration threshold resolves to exactly one tap
world-edit.  In TouchManager, by contrast, the tap decision on release
depends only on the release duration and on the distance of the release point
from the recorded start position — an intermediate excursion beyond the
threshold does not disqualify the tap. -/
theorem tap_disqualification_semantics :
    (∀ (s : TBCState) (touches : List Touch) (now : ℝ),
      Option.map TBTouch.moved s.currentTouch = Option.some true →
      Option.map TBTouch.moved (tbcHandleTouchMove s touches now).currentTouch =
        Option.some true) ∧
    (∀ (s : TBCState) (world : ℝ → ℝ → ℕ) (changed : List Touch) (remaining : ℕ)
      (now : ℝ),
      Option.map TBTouch.moved s.currentTouch = Option.some true →
      (tbcHandleTouchEnd s world changed remaining now).2 = []) ∧
    (∀ (s : TBCState) (world : ℝ → ℝ → ℕ) (t : Touch) (tl : List Touch) (now : ℝ)
      (ct : TBTouch),
      s.enabled = true → s.currentTouch = Option.some ct → ct.moved = false →
      now - ct.timestamp < s.tapDurationThreshold →
      (tbcHandleTouchEnd s world (t :: tl) 0 now).2 =
        tbcHandleTap s world (t.x - s.rectLeft) (t.y - s.rectTop) ∧
      ∃ out, tbcHandleTap s world (t.x - s.rectLeft) (t.y - s.rectTop) = [out]) ∧
    (∀ (s : TMState) (t : Touch) (now : ℝ) (tp : TMPoint),
      s.activeTouches.find? (fun q => q.id = t.id) = Option.some tp →
      (tmEndOne s t now).2 =
        (if now - tp.timestamp < 300 ∧
            Real.sqrt ((t.x - s.rectLeft - tp.startX) ^ 2 +
              (t.y - s.rectTop - tp.startY) ^ 2) < 10 then
          [TMOut.tap tp.startX tp.startY]
        else [])) := by
  refine ⟨?_, ?_, ?_, ?_⟩
  · intro s touches now h
    obtain ⟨ct, hct, hmoved⟩ : ∃ ct, s.currentTouch = Option.some ct ∧
        ct.moved = true := by
      cases hc : s.currentTouch with
      | none => rw [hc] at h; exact absurd h (by simp)
      | some ct => rw [hc] at h; exact ⟨ct, rfl, by simpa using h⟩
    unfold tbcHandleTouchMove
    split
    · rw [hct]; simp [hmoved]
    · rw [hct]
      simp only
      split
      · simp [hct, hmoved]
      · split
        · simp [hct, hmoved]
        · simp only
          split
          · simp
          · simp [hmoved]
  · intro s world changed remaining now h
    obtain ⟨ct, hct, hmoved⟩ : ∃ ct, s.currentTouch = Option.some ct ∧
        ct.moved = true := by
      cases hc : s.currentTouch with
      | none => rw [hc] at h; exact absurd h (by simp)
      | some ct => rw [hc] at h; exact ⟨ct, rfl, by simpa using h⟩
    unfold tbcHandleTouchEnd
    split
    · rfl
    · simp only [cancelLongPress, hct]
      split
      · rfl
      · cases changed with
        | nil => rfl
        | cons t tl =>
          simp only
          rw [if_neg (by rw [hmoved]; rintro ⟨hfalse, -⟩; cases hfalse)]
  · intro s world t tl now ct hen hct hmoved hdur
    constructor
    · unfold tbcHandleTouchEnd
      rw [if_neg (by rw [hen]; simp)]
      simp only [cancelLongPress, hct]
      rw [if_neg (by simp)]
      simp only
      rw [if_pos ⟨hmoved, hdur⟩]
      unfold tbcHandleTap
      rfl
    · unfold tbcHandleTap
      split
      · exact ⟨_, rfl⟩
      · exact ⟨_, rfl⟩
  · intro s t now tp hfind
    unfold tmEndOne tmCancelTimer
    rw [hfind]

/-- Witness for the amended C4: concrete instances of all four conjuncts. -/
theorem tap_disqualification_semantics_witness :
    Option.map TBTouch.moved (tbcHandleTouchMove
      { tbcInit 0 0 with currentTouch := Option.some ⟨5, 5, 0, 0, 0, true⟩ }
      [⟨0, 3, 3⟩] 50).currentTouch = Option.some true ∧
    (tbcHandleTouchEnd
      { tbcInit 0 0 with currentTouch := Option.some ⟨5, 5, 0, 0, 0, true⟩ }
      (fun _ _ => 0) [⟨0, 5, 5⟩] 0 100).2 = [] ∧
    (tbcHandleTouchEnd
      { tbcInit 0 0 with currentTouch := Option.some ⟨0, 0, 0, 0, 0, false⟩,
                         touchCount := 1 }
      (fun _ _ => 0) [⟨0, 0, 0⟩] 0 100).2 =
      tbcHandleTap
        { tbcInit 0 0 with currentTouch := Option.some ⟨0, 0, 0, 0, 0, false⟩,
                           touchCount := 1 }
        (fun _ _ => 0) (0 - 0) (0 - 0) ∧
    (tmEndOne
      { tmInit 0 0 with activeTouches := [⟨0, 0, 0, 0, 0, 0⟩],
                        longPressTimers := [0] } ⟨0, 0, 0⟩ 100).2 =
      (if (100:ℝ) - 0 < 300 ∧
          Real.sqrt (((0:ℝ) - 0 - 0) ^ 2 + ((0:ℝ) - 0 - 0) ^ 2) < 10 then
        [TMOut.tap 0 0]
      else []) :=
  ⟨tap_disqualification_semantics.1 _ _ _ rfl,
   tap_disqualification_semantics.2.1 _ _ _ _ _ rfl,
   (tap_disqualification_semantics.2.2.1 _ _ ⟨0, 0, 0⟩ [] 100 ⟨0, 0, 0, 0, 0, false⟩
      rfl rfl rfl (by norm_num [tbcInit])).1,
   tap_disqualification_semantics.2.2.2 _ ⟨0, 0, 0⟩ 100 ⟨0, 0, 0, 0, 0, 0⟩ rfl⟩

/-- Counterexample to C4 as stated: in TouchManager a contact starting at
(0, 0) moves 50 px away — beyond the 10 px threshold, cancelling its
long-press timer — returns to (0, 0), and on release at 100 ms still fires a
tap: exceeding the movement threshold did not permanently disqualify it. -/
theorem tm_tap_excursion_requalifies_cex :
    ((tmHandleTouchMove (tmHandleTouchStart (tmInit 0 0) [⟨0, 0, 0⟩] 0)
        [⟨0, 50, 0⟩] 50).1).longPressTimers = [] ∧
    (tmHandleTouchEnd ((tmHandleTouchMove ((tmHandleTouchMove
        (tmHandleTouchStart (tmInit 0 0) [⟨0, 0, 0⟩] 0) [⟨0, 50, 0⟩] 50).1)
        [⟨0, 0, 0⟩] 80).1) [⟨0, 0, 0⟩] 100).2 = [TMOut.tap 0 0] := by
  have e2500 : Real.sqrt ((2500:ℝ)) = 50 := by
    rw [show (2500:ℝ) = 50 ^ 2 by norm_num]
    exact Real.sqrt_sq (by norm_num)
  have hs1 : tmHandleTouchStart (tmInit 0 0) [⟨0, 0, 0⟩] 0 =
      ⟨[⟨0, 0, 0, 0, 0, 0⟩], [0], 0, 0⟩ := by
    norm_num [tmHandleTouchStart, tmInit, tmSet, tmTimerSet]
  have hm1 : tmHandleTouchMove (⟨[⟨0, 0, 0, 0, 0, 0⟩], [0], 0, 0⟩ : TMState)
      [⟨0, 50, 0⟩] 50 =
      (⟨[⟨0, 50, 0, 0, 0, 0⟩], [], 0, 0⟩, [TMOut.drag 50 0 1 50 0]) := by
    unfold tmHandleTouchMove tmMoveUpdate tmCancelTimer
    norm_num [e2500]
  have hm2 : tmHandleTouchMove (⟨[⟨0, 50, 0, 0, 0, 0⟩], [], 0, 0⟩ : TMState)
      [⟨0, 0, 0⟩] 80 =
      (⟨[⟨0, 0, 0, 0, 0, 0⟩], [], 0, 0⟩, [TMOut.drag (-50) 0 1 0 0]) := by
    unfold tmHandleTouchMove tmMoveUpdate tmCancelTimer
    norm_num
  have he : tmHandleTouchEnd (⟨[⟨0, 0, 0, 0, 0, 0⟩], [], 0, 0⟩ : TMState)
      [⟨0, 0, 0⟩] 100 = (⟨[], [], 0, 0⟩, [TMOut.tap 0 0]) := by
    unfold tmHandleTouchEnd tmEndOne tmCancelTimer
    norm_num
  rw [hs1, hm1]
  refine ⟨rfl, ?_⟩
  rw [hm2, he]

/-- C5 (amended).  TouchBlockController suppresses multi-contact candidates
only partially: a touch-start with other than one contact cancels the
long-press timer and emits nothing (so no long-press can fire while it stays
cancelled, since the timer callback is a no-op without a pending timer), and
a touch-end processed while contacts remain clears the candidate without any
tap; but when all contacts end in one touch-end event the surviving candidate
can still resolve to a tap.  TouchManager applies no multi-contact
suppression at all: on a touch-end it resolves each ended contact's tap test
independently, so two simultaneously released short stationary contacts fire
two taps. -/
theorem multi_contact_suppression :
    (∀ (s : TBCState) (touches : List Touch) (now : ℝ),
      s.enabled = true → touches.length ≠ 1 →
      tbcHandleTouchStart s touches now =
        ({ s with touchCount := touches.length, longPressTimer := Option.none },
          [])) ∧
    (∀ s : TBCState, s.longPressTimer = Option.none → tbcLongPressFire s = (s, [])) ∧
    (∀ (s : TBCState) (world : ℝ → ℝ → ℕ) (changed : List Touch) (remaining : ℕ)
      (now : ℝ), s.enabled = true → 0 < remaining →
      tbcHandleTouchEnd s world changed remaining now =
        ({ s with touchCount := remaining, longPressTimer := Option.none,
                  currentTouch := Option.none, quickDeleteMode := false }, [])) ∧
    (tmHandleTouchEnd
      (⟨[⟨0, 0, 0, 0, 0, 0⟩, ⟨1, 100, 0, 100, 0, 0⟩], [0, 1], 0, 0⟩ : TMState)
      [⟨0, 0, 0⟩, ⟨1, 100, 0⟩] 100).2 = [TMOut.tap 0 0, TMOut.tap 100 0] := by
  refine ⟨?_, ?_, ?_, ?_⟩
  · intro s touches now hen hlen
    unfold tbcHandleTouchStart
    rw [if_neg (by rw [hen]; simp)]
    simp only
    rw [if_pos hlen]
    rfl
  · intro s h
    unfold tbcLongPressFire
    rw [h]
  · intro s world changed remaining now hen hrem
    unfold tbcHandleTouchEnd
    rw [if_neg (by rw [hen]; simp)]
    simp only [cancelLongPress]
    rw [if_pos (Or.inl hrem)]
  · have e0 : Real.sqrt ((0:ℝ)) = 0 := Real.sqrt_zero
    unfold tmHandleTouchEnd tmEndOne tmCancelTimer
    norm_num

/-- Witness for the amended C5: a second contact starting during a live
candidate cancels the timer and emits nothing, the cancelled timer cannot
fire, and a touch-end with one contact remaining clears the candidate
silently. -/
theorem multi_contact_suppression_witness :
    tbcHandleTouchStart
      { tbcInit 0 0 with currentTouch := Option.some ⟨0, 0, 0, 0, 0, false⟩,
                         touchCount := 1, longPressTimer := Option.some ⟨0, 0, 0⟩ }
      [⟨0, 0, 0⟩, ⟨1, 100, 0⟩] 10 =
      ({ tbcInit 0 0 with currentTouch := Option.some ⟨0, 0, 0, 0, 0, false⟩,
                          touchCount := 2, longPressTimer := Option.none }, []) ∧
    tbcLongPressFire
      { tbcInit 0 0 with currentTouch := Option.some ⟨0, 0, 0, 0, 0, false⟩,
                         touchCount := 2, longPressTimer := Option.none } =
      ({ tbcInit 0 0 with currentTouch := Option.some ⟨0, 0, 0, 0, 0, false⟩,
                          touchCount := 2, longPressTimer := Option.none }, []) ∧
    tbcHandleTouchEnd
      { tbcInit 0 0 with currentTouch := Option.some ⟨0, 0, 0, 0, 0, false⟩,
                         touchCount := 2 }
      (fun _ _ => 0) [⟨1, 100, 0⟩] 1 60 =
      ({ tbcInit 0 0 with touchCount := 1, longPressTimer := Option.none,
                          currentTouch := Option.none, quickDeleteMode := false },
        []) :=
  ⟨multi_contact_suppression.1 _ _ 10 rfl (by norm_num),
   multi_contact_suppression.2.1 _ rfl,
   multi_contact_suppression.2.2.1 _ _ _ 1 60 rfl (by norm_num)⟩

/-- Counterexample to C5 as stated: contact A starts alone at (0, 0), contact
B joins at 10 ms, and both are released in a single touch-end at 100 ms with
zero contacts remaining — yet TouchBlockController still resolves A's
candidate to a tap and edits the world (places a block at (0, 0)). -/
theorem multi_contact_release_tap_cex :
    (tbcHandleTouchEnd
      ((tbcHandleTouchStart
        ((tbcHandleTouchStart (tbcInit 0 0) [⟨0, 0, 0⟩] 0).1)
        [⟨0, 0, 0⟩, ⟨1, 100, 0⟩] 10).1)
      (fun _ _ => 0) [⟨0, 0, 0⟩, ⟨1, 100, 0⟩] 0 100).2 = [TBOut.place 0 0 1] := by
  have h1 : (tbcHandleTouchStart (tbcInit 0 0) [⟨0, 0, 0⟩] 0).1 =
      { tbcInit 0 0 with currentTouch := Option.some ⟨0, 0, 0, 0, 0, false⟩,
                         touchCount := 1, longPressTimer := Option.some ⟨0, 0, 0⟩ } := by
    unfold tbcHandleTouchStart startLongPressTimer cancelLongPress
    norm_num [tbcInit]
  have h2 : (tbcHandleTouchStart
      { tbcInit 0 0 with currentTouch := Option.some ⟨0, 0, 0, 0, 0, false⟩,
                         touchCount := 1, longPressTimer := Option.some ⟨0, 0, 0⟩ }
      [⟨0, 0, 0⟩, ⟨1, 100, 0⟩] 10).1 =
      { tbcInit 0 0 with currentTouch := Option.some ⟨0, 0, 0, 0, 0, false⟩,
                         touchCount := 2, longPressTimer := Option.none } := by
    unfold tbcHandleTouchStart cancelLongPress
    norm_num [tbcInit]
  rw [h1, h2]
  unfold tbcHandleTouchEnd cancelLongPress tbcHandleTap
  norm_num [tbcInit]

/-! ### Momentum session algebra -/

/-- The rotate x-delta carried by a camera call (0 for non-rotate calls). -/
def rotDX : CamCall → ℝ
  | CamCall.rotate dx _ => dx
  | CamCall.zoom _ => 0
  | CamCall.pan dx _ => dx

/-- The rotate y-delta carried by a camera call (0 for non-rotate calls). -/
def rotDY : CamCall → ℝ
  | CamCall.rotate _ dy => dy
  | CamCall.zoom _ => 0
  | CamCall.pan _ dy => dy

/-- Closed form of the `animate` loop locals after `n` surviving frames. -/
def momoIter (v0x v0y : ℝ) : ℕ → MomoState
  | 0 => ⟨v0x, v0y, 0, 0⟩
  | n + 1 => ⟨v0x * MOMENTUM_FRICTION ^ (n + 1), v0y * MOMENTUM_FRICTION ^ (n + 1),
      v0x * MOMENTUM_FRICTION ^ (n + 1), v0y * MOMENTUM_FRICTION ^ (n + 1)⟩

/-- Closed form of the per-axis rotate delta computed by frame `k + 1`. -/
def momoDelta (v0 : ℝ) : ℕ → ℝ
  | 0 => v0 * MOMENTUM_FRICTION
  | k + 1 => v0 * MOMENTUM_FRICTION ^ (k + 2) - v0 * MOMENTUM_FRICTION ^ (k + 1)

lemma frict_nonneg : (0:ℝ) ≤ MOMENTUM_FRICTION := by
  rw [MOMENTUM_FRICTION]; norm_num

lemma frict_lt_one : MOMENTUM_FRICTION < 1 := by
  rw [MOMENTUM_FRICTION]; norm_num

lemma min_vel_pos : (0:ℝ) < MOMENTUM_MIN_VELOCITY := by
  rw [MOMENTUM_MIN_VELOCITY]; norm_num

lemma momoIter_velocityX (v0x v0y : ℝ) (n : ℕ) :
    (momoIter v0x v0y n).velocityX = v0x * MOMENTUM_FRICTION ^ n := by
  cases n with
  | zero => simp [momoIter]
  | succ n => rfl

lemma momoIter_velocityY (v0x v0y : ℝ) (n : ℕ) :
    (momoIter v0x v0y n).velocityY = v0y * MOMENTUM_FRICTION ^ n := by
  cases n with
  | zero => simp [momoIter]
  | succ n => rfl

/-- The delta computed at frame `k + 1` against the stored lasts. -/
lemma momoDelta_eq (v0x v0y : ℝ) (k : ℕ) :
    (momoIter v0x v0y k).velocityX * MOMENTUM_FRICTION - (momoIter v0x v0y k).lastX =
      momoDelta v0x k := by
  cases k with
  | zero => show v0x * MOMENTUM_FRICTION - 0 = v0x * MOMENTUM_FRICTION; ring
  | succ k =>
    show v0x * MOMENTUM_FRICTION ^ (k + 1) * MOMENTUM_FRICTION -
        v0x * MOMENTUM_FRICTION ^ (k + 1) =
      v0x * MOMENTUM_FRICTION ^ (k + 2) - v0x * MOMENTUM_FRICTION ^ (k + 1)
    ring

lemma momoDelta_eqY (v0x v0y : ℝ) (k : ℕ) :
    (momoIter v0x v0y k).velocityY * MOMENTUM_FRICTION - (momoIter v0x v0y k).lastY =
      momoDelta v0y k := by
  cases k with
  | zero => show v0y * MOMENTUM_FRICTION - 0 = v0y * MOMENTUM_FRICTION; ring
  | succ k =>
    show v0y * MOMENTUM_FRICTION ^ (k + 1) * MOMENTUM_FRICTION -
        v0y * MOMENTUM_FRICTION ^ (k + 1) =
      v0y * MOMENTUM_FRICTION ^ (k + 2) - v0y * MOMENTUM_FRICTION ^ (k + 1)
    ring

/-- Successive per-axis rotate deltas decrease in magnitude. -/
lemma momoDelta_mono (v0 : ℝ) (k : ℕ) :
    |momoDelta v0 (k + 1)| ≤ |momoDelta v0 k| := by
  have habs : |MOMENTUM_FRICTION - 1| ≤ 1 := by
    rw [abs_le]
    constructor
    · have := frict_nonneg; linarith
    · have := frict_lt_one; linarith
  cases k with
  | zero =>
    show |v0 * MOMENTUM_FRICTION ^ 2 - v0 * MOMENTUM_FRICTION ^ 1| ≤
      |v0 * MOMENTUM_FRICTION|
    rw [show v0 * MOMENTUM_FRICTION ^ 2 - v0 * MOMENTUM_FRICTION ^ 1 =
          v0 * MOMENTUM_FRICTION * (MOMENTUM_FRICTION - 1) by ring, abs_mul]
    calc |v0 * MOMENTUM_FRICTION| * |MOMENTUM_FRICTION - 1| ≤
        |v0 * MOMENTUM_FRICTION| * 1 :=
          mul_le_mul_of_nonneg_left habs (abs_nonneg _)
      _ = |v0 * MOMENTUM_FRICTION| := mul_one _
  | succ k =>
    show |v0 * MOMENTUM_FRICTION ^ (k + 3) - v0 * MOMENTUM_FRICTION ^ (k + 2)| ≤
      |v0 * MOMENTUM_FRICTION ^ (k + 2) - v0 * MOMENTUM_FRICTION ^ (k + 1)|
    rw [show v0 * MOMENTUM_FRICTION ^ (k + 3) - v0 * MOMENTUM_FRICTION ^ (k + 2) =
          MOMENTUM_FRICTION *
            (v0 * MOMENTUM_FRICTION ^ (k + 2) - v0 * MOMENTUM_FRICTION ^ (k + 1))
          by ring, abs_mul]
    calc |MOMENTUM_FRICTION| *
          |v0 * MOMENTUM_FRICTION ^ (k + 2) - v0 * MOMENTUM_FRICTION ^ (k + 1)| ≤
        1 * |v0 * MOMENTUM_FRICTION ^ (k + 2) - v0 * MOMENTUM_FRICTION ^ (k + 1)| := by
          apply mul_le_mul_of_nonneg_right _ (abs_nonneg _)
          rw [abs_of_nonneg frict_nonneg]
          exact le_of_lt frict_lt_one
      _ = _ := one_mul _

lemma abs_mul_pow_frict (v : ℝ) (n : ℕ) :
    |v * MOMENTUM_FRICTION ^ n| = |v| * MOMENTUM_FRICTION ^ n := by
  rw [abs_mul, abs_pow, abs_of_nonneg frict_nonneg]

/-- An animation frame on an active session with post-friction velocity above
the stop threshold: apply friction, maybe emit a rotate call, reschedule. -/
lemma momentumFrame_active (s : CamState) (m : MomoState)
    (hs : s.momentum = Option.some m)
    (hstop : ¬(|m.velocityX * MOMENTUM_FRICTION| < MOMENTUM_MIN_VELOCITY ∧
               |m.velocityY * MOMENTUM_FRICTION| < MOMENTUM_MIN_VELOCITY)) :
    momentumFrame s =
      ({ s with momentum := Option.some ⟨m.velocityX * MOMENTUM_FRICTION,
          m.velocityY * MOMENTUM_FRICTION, m.velocityX * MOMENTUM_FRICTION,
          m.velocityY * MOMENTUM_FRICTION⟩ },
        if |m.velocityX * MOMENTUM_FRICTION - m.lastX| > 0.01 ∨
            |m.velocityY * MOMENTUM_FRICTION - m.lastY| > 0.01 then
          [CamCall.rotate
            ((m.velocityX * MOMENTUM_FRICTION - m.lastX) * s.rotationSensitivity)
            ((m.velocityY * MOMENTUM_FRICTION - m.lastY) * s.rotationSensitivity)]
        else []) := by
  unfold momentumFrame
  rw [hs]
  simp only
  rw [if_neg hstop]

/-- An animation frame on an active session with post-friction velocity below
the stop threshold on both axes stops the session without a call. -/
lemma momentumFrame_stop (s : CamState) (m : MomoState)
    (hs : s.momentum = Option.some m)
    (hstop : |m.velocityX * MOMENTUM_FRICTION| < MOMENTUM_MIN_VELOCITY ∧
             |m.velocityY * MOMENTUM_FRICTION| < MOMENTUM_MIN_VELOCITY) :
    momentumFrame s = (stopMomentum s, []) := by
  unfold momentumFrame
  rw [hs]
  simp only
  rw [if_pos hstop]

lemma momentumRun_succ_fst (s : CamState) (n : ℕ) :
    (momentumRun s (n + 1)).1 = (momentumFrame (momentumRun s n).1).1 := rfl

/-- While no stop step has occurred, the session state follows the closed
form `momoIter`. -/
lemma momentumRun_state (v0x v0y : ℝ) (s : CamState)
    (hs : s.momentum = Option.some ⟨v0x, v0y, 0, 0⟩) (n : ℕ) :
    (∀ k, 0 < k → k ≤ n →
      ¬(|v0x| * MOMENTUM_FRICTION ^ k < MOMENTUM_MIN_VELOCITY ∧
        |v0y| * MOMENTUM_FRICTION ^ k < MOMENTUM_MIN_VELOCITY)) →
    (momentumRun s n).1 = { s with momentum := Option.some (momoIter v0x v0y n) } := by
  induction n with
  | zero =>
    intro _
    show s = { s with momentum := Option.some (momoIter v0x v0y 0) }
    rw [show momoIter v0x v0y 0 = ⟨v0x, v0y, 0, 0⟩ from rfl, ← hs]
  | succ n ih =>
    intro h
    have hrec := ih (fun k hk hkn => h k hk (hkn.trans (Nat.le_succ n)))
    rw [momentumRun_succ_fst, hrec]
    have hactive : ¬(|(momoIter v0x v0y n).velocityX * MOMENTUM_FRICTION| <
          MOMENTUM_MIN_VELOCITY ∧
        |(momoIter v0x v0y n).velocityY * MOMENTUM_FRICTION| <
          MOMENTUM_MIN_VELOCITY) := by
      rw [momoIter_velocityX, momoIter_velocityY]
      intro hcon
      refine h (n + 1) (Nat.succ_pos n) (le_refl _) ?_
      constructor
      · have e : v0x * MOMENTUM_FRICTION ^ n * MOMENTUM_FRICTION =
            v0x * MOMENTUM_FRICTION ^ (n + 1) := by ring
        rw [← abs_mul_pow_frict, ← e]
        exact hcon.1
      · have e : v0y * MOMENTUM_FRICTION ^ n * MOMENTUM_FRICTION =
            v0y * MOMENTUM_FRICTION ^ (n + 1) := by ring
        rw [← abs_mul_pow_frict, ← e]
        exact hcon.2
    rw [momentumFrame_active _ _ rfl hactive]
    have hmk : (⟨(momoIter v0x v0y n).velocityX * MOMENTUM_FRICTION,
        (momoIter v0x v0y n).velocityY * MOMENTUM_FRICTION,
        (momoIter v0x v0y n).velocityX * MOMENTUM_FRICTION,
        (momoIter v0x v0y n).velocityY * MOMENTUM_FRICTION⟩ : MomoState) =
        momoIter v0x v0y (n + 1) := by
      rw [momoIter_velocityX, momoIter_velocityY]
      show (⟨v0x * MOMENTUM_FRICTION ^ n * MOMENTUM_FRICTION,
        v0y * MOMENTUM_FRICTION ^ n * MOMENTUM_FRICTION,
        v0x * MOMENTUM_FRICTION ^ n * MOMENTUM_FRICTION,
        v0y * MOMENTUM_FRICTION ^ n * MOMENTUM_FRICTION⟩ : MomoState) = _
      show _ = (⟨v0x * MOMENTUM_FRICTION ^ (n + 1), v0y * MOMENTUM_FRICTION ^ (n + 1),
        v0x * MOMENTUM_FRICTION ^ (n + 1), v0y * MOMENTUM_FRICTION ^ (n + 1)⟩ : MomoState)
      simp only [MomoState.mk.injEq]
      refine ⟨by ring, by ring, by ring, by ring⟩
    rw [hmk]

/-- Every momentum session reaches a step at which both axis magnitudes drop
below the stop threshold. -/
lemma exists_stop_step (v0x v0y : ℝ) :
    ∃ n : ℕ, 0 < n ∧
      (|v0x| * MOMENTUM_FRICTION ^ n < MOMENTUM_MIN_VELOCITY ∧
       |v0y| * MOMENTUM_FRICTION ^ n < MOMENTUM_MIN_VELOCITY) := by
  have hMpos : (0:ℝ) < |v0x| + |v0y| + 1 := by positivity
  obtain ⟨n, hn⟩ := exists_pow_lt_of_lt_one
    (div_pos min_vel_pos hMpos) frict_lt_one
  have hpow : MOMENTUM_FRICTION ^ (n + 1) ≤ MOMENTUM_FRICTION ^ n :=
    pow_le_pow_of_le_one frict_nonneg (le_of_lt frict_lt_one) (Nat.le_succ n)
  have hbig : (|v0x| + |v0y| + 1) * MOMENTUM_FRICTION ^ n < MOMENTUM_MIN_VELOCITY := by
    have h3 := mul_lt_mul_of_pos_left hn hMpos
    rw [mul_comm (|v0x| + |v0y| + 1) (MOMENTUM_MIN_VELOCITY / (|v0x| + |v0y| + 1)),
      div_mul_cancel₀ _ (ne_of_gt hMpos)] at h3
    exact h3
  refine ⟨n + 1, Nat.succ_pos n, ?_, ?_⟩
  · have h2 : |v0x| * MOMENTUM_FRICTION ^ (n + 1) ≤
        (|v0x| + |v0y| + 1) * MOMENTUM_FRICTION ^ n := by
      apply mul_le_mul _ hpow (pow_nonneg frict_nonneg _) (le_of_lt hMpos)
      have := abs_nonneg v0y
      linarith
    linarith
  · have h2 : |v0y| * MOMENTUM_FRICTION ^ (n + 1) ≤
        (|v0x| + |v0y| + 1) * MOMENTUM_FRICTION ^ n := by
      apply mul_le_mul _ hpow (pow_nonneg frict_nonneg _) (le_of_lt hMpos)
      have := abs_nonneg v0x
      linarith
    linarith

/-- C8.  For every momentum session (seeded with velocities `v0x, v0y` and
zero lasts) there is a step count `N`: the first step at which both
post-friction axis magnitudes are below the 0.1 threshold.  Before `N` the
session stays scheduled with velocities exactly `v0 · 0.92 ^ n`; at step `N`
the session is cancelled; no animation frame after `N` changes the state or
emits a call; the per-axis magnitudes of the rotate deltas issued by
successive frames are monotonically decreasing; and once a frame emits no
call no later frame emits one. -/
theorem momentum_session_decay (s : CamState) (v0x v0y : ℝ)
    (hs : s.momentum = Option.some ⟨v0x, v0y, 0, 0⟩) :
    ∃ N : ℕ, 0 < N ∧
      (|v0x| * MOMENTUM_FRICTION ^ N < MOMENTUM_MIN_VELOCITY ∧
       |v0y| * MOMENTUM_FRICTION ^ N < MOMENTUM_MIN_VELOCITY) ∧
      (∀ k, 0 < k → k < N →
        ¬(|v0x| * MOMENTUM_FRICTION ^ k < MOMENTUM_MIN_VELOCITY ∧
          |v0y| * MOMENTUM_FRICTION ^ k < MOMENTUM_MIN_VELOCITY)) ∧
      (∀ n, n < N → ∃ m : MomoState,
        (momentumRun s n).1.momentum = Option.some m ∧
        m.velocityX = v0x * MOMENTUM_FRICTION ^ n ∧
        m.velocityY = v0y * MOMENTUM_FRICTION ^ n) ∧
      (momentumRun s N).1.momentum = Option.none ∧
      (∀ m, N ≤ m → momentumRun s m = momentumRun s N) ∧
      (∀ k, frameCalls s k = [] → frameCalls s (k + 1) = []) ∧
      (∀ k c cp, c ∈ frameCalls s k → cp ∈ frameCalls s (k + 1) →
        |rotDX cp| ≤ |rotDX c| ∧ |rotDY cp| ≤ |rotDY c|) := by
  classical
  have hex := exists_stop_step v0x v0y
  refine ⟨Nat.find hex, (Nat.find_spec hex).1, (Nat.find_spec hex).2, ?_⟩
  have hNpos : 0 < Nat.find hex := (Nat.find_spec hex).1
  have hPN := (Nat.find_spec hex).2
  have hmin : ∀ k, 0 < k → k < Nat.find hex →
      ¬(|v0x| * MOMENTUM_FRICTION ^ k < MOMENTUM_MIN_VELOCITY ∧
        |v0y| * MOMENTUM_FRICTION ^ k < MOMENTUM_MIN_VELOCITY) := by
    intro k hk hkN hP
    exact Nat.find_min hex hkN ⟨hk, hP⟩
  obtain ⟨M, hM⟩ : ∃ M, Nat.find hex = M + 1 :=
    ⟨Nat.find hex - 1, (Nat.succ_pred_eq_of_pos hNpos).symm⟩
  have hstate : ∀ n, n ≤ M → (momentumRun s n).1 =
      { s with momentum := Option.some (momoIter v0x v0y n) } := by
    intro n hn
    apply momentumRun_state v0x v0y s hs n
    intro k hk hkn
    exact hmin k hk (by omega)
  have hstopcond :
      |(momoIter v0x v0y M).velocityX * MOMENTUM_FRICTION| < MOMENTUM_MIN_VELOCITY ∧
      |(momoIter v0x v0y M).velocityY * MOMENTUM_FRICTION| < MOMENTUM_MIN_VELOCITY := by
    rw [momoIter_velocityX, momoIter_velocityY]
    constructor
    · have e : v0x * MOMENTUM_FRICTION ^ M * MOMENTUM_FRICTION =
          v0x * MOMENTUM_FRICTION ^ (M + 1) := by ring
      rw [e, abs_mul_pow_frict, ← hM]
      exact hPN.1
    · have e : v0y * MOMENTUM_FRICTION ^ M * MOMENTUM_FRICTION =
          v0y * MOMENTUM_FRICTION ^ (M + 1) := by ring
      rw [e, abs_mul_pow_frict, ← hM]
      exact hPN.2
  have hrunN : (momentumRun s (Nat.find hex)).1 =
      stopMomentum { s with momentum := Option.some (momoIter v0x v0y M) } := by
    rw [hM, momentumRun_succ_fst, hstate M (le_refl M),
      momentumFrame_stop _ _ rfl hstopcond]
  have hnone : (momentumRun s (Nat.find hex)).1.momentum = Option.none := by
    rw [hrunN]; rfl
  have hafter : ∀ d, momentumRun s (Nat.find hex + d) = momentumRun s (Nat.find hex) := by
    intro d
    induction d with
    | zero => rfl
    | succ d ih =>
      have hfr : momentumFrame (momentumRun s (Nat.find hex + d)).1 =
          ((momentumRun s (Nat.find hex + d)).1, []) :=
        momentumFrame_none _ (by rw [ih]; exact hnone)
      have hdef : momentumRun s (Nat.find hex + d + 1) =
          ((momentumFrame (momentumRun s (Nat.find hex + d)).1).1,
           (momentumRun s (Nat.find hex + d)).2 ++
             (momentumFrame (momentumRun s (Nat.find hex + d)).1).2) := rfl
      rw [show Nat.find hex + (d + 1) = Nat.find hex + d + 1 by omega, hdef, hfr]
      simp only
      rw [List.append_nil, ih]
  have hcallsM : frameCalls s M = [] := by
    unfold frameCalls
    rw [hstate M (le_refl M), momentumFrame_stop _ _ rfl hstopcond]
  have hcallsAfter : ∀ j, Nat.find hex ≤ j → frameCalls s j = [] := by
    intro j hj
    unfold frameCalls
    obtain ⟨d, rfl⟩ := Nat.exists_eq_add_of_le hj
    rw [hafter d, momentumFrame_none _ hnone]
  have hcont : ∀ j, j + 1 < Nat.find hex → frameCalls s j =
      (if |momoDelta v0x j| > 0.01 ∨ |momoDelta v0y j| > 0.01 then
        [CamCall.rotate (momoDelta v0x j * s.rotationSensitivity)
          (momoDelta v0y j * s.rotationSensitivity)]
      else []) := by
    intro j hj
    unfold frameCalls
    rw [hstate j (by omega)]
    have hact : ¬(|(momoIter v0x v0y j).velocityX * MOMENTUM_FRICTION| <
          MOMENTUM_MIN_VELOCITY ∧
        |(momoIter v0x v0y j).velocityY * MOMENTUM_FRICTION| <
          MOMENTUM_MIN_VELOCITY) := by
      rw [momoIter_velocityX, momoIter_velocityY]
      intro hcon
      apply hmin (j + 1) (Nat.succ_pos j) hj
      constructor
      · have e : v0x * MOMENTUM_FRICTION ^ j * MOMENTUM_FRICTION =
            v0x * MOMENTUM_FRICTION ^ (j + 1) := by ring
        rw [← abs_mul_pow_frict, ← e]
        exact hcon.1
      · have e : v0y * MOMENTUM_FRICTION ^ j * MOMENTUM_FRICTION =
            v0y * MOMENTUM_FRICTION ^ (j + 1) := by ring
        rw [← abs_mul_pow_frict, ← e]
        exact hcon.2
    rw [momentumFrame_active _ _ rfl hact]
    simp only
    rw [momoDelta_eq, momoDelta_eqY]
  have hempty_high : ∀ j, ¬(j + 1 < Nat.find hex) → frameCalls s j = [] := by
    intro j hj
    have : j = M ∨ Nat.find hex ≤ j := by omega
    rcases this with h | h
    · rw [h]; exact hcallsM
    · exact hcallsAfter _ h
  refine ⟨hmin, ?_, hnone, ?_, ?_, ?_⟩
  · intro n hn
    refine ⟨momoIter v0x v0y n, ?_, momoIter_velocityX v0x v0y n,
      momoIter_velocityY v0x v0y n⟩
    rw [hstate n (by omega)]
  · intro m hm
    obtain ⟨d, rfl⟩ := Nat.exists_eq_add_of_le hm
    exact hafter d
  · intro k hk
    by_cases hcase : k + 1 + 1 < Nat.find hex
    · rw [hcont (k + 1) hcase]
      rw [hcont k (by omega)] at hk
      by_cases hc : |momoDelta v0x k| > 0.01 ∨ |momoDelta v0y k| > 0.01
      · rw [if_pos hc] at hk
        exact absurd hk (by simp)
      · push_neg at hc
        have hx := (momoDelta_mono v0x k).trans hc.1
        have hy := (momoDelta_mono v0y k).trans hc.2
        rw [if_neg (by push_neg; exact ⟨hx, hy⟩)]
    · exact hempty_high (k + 1) hcase
  · intro k c cp hc hcp
    have hklt : k + 1 + 1 < Nat.find hex := by
      by_contra hge
      rw [hempty_high (k + 1) hge] at hcp
      exact absurd hcp (List.not_mem_nil cp)
    rw [hcont k (by omega)] at hc
    rw [hcont (k + 1) hklt] at hcp
    have hcc : c = CamCall.rotate (momoDelta v0x k * s.rotationSensitivity)
        (momoDelta v0y k * s.rotationSensitivity) := by
      by_cases h : |momoDelta v0x k| > 0.01 ∨ |momoDelta v0y k| > 0.01
      · rw [if_pos h] at hc; simpa using hc
      · rw [if_neg h] at hc; exact absurd hc (List.not_mem_nil c)
    have hcpc : cp = CamCall.rotate (momoDelta v0x (k + 1) * s.rotationSensitivity)
        (momoDelta v0y (k + 1) * s.rotationSensitivity) := by
      by_cases h : |momoDelta v0x (k + 1)| > 0.01 ∨ |momoDelta v0y (k + 1)| > 0.01
      · rw [if_pos h] at hcp; simpa using hcp
      · rw [if_neg h] at hcp; exact absurd hcp (List.not_mem_nil cp)
    rw [hcc, hcpc]
    constructor
    · show |momoDelta v0x (k + 1) * s.rotationSensitivity| ≤
        |momoDelta v0x k * s.rotationSensitivity|
      rw [abs_mul, abs_mul]
      exact mul_le_mul_of_nonneg_right (momoDelta_mono v0x k) (abs_nonneg _)
    · show |momoDelta v0y (k + 1) * s.rotationSensitivity| ≤
        |momoDelta v0y k * s.rotationSensitivity|
      rw [abs_mul, abs_mul]
      exact mul_le_mul_of_nonneg_right (momoDelta_mono v0y k) (abs_nonneg _)

/-- Witness for C8 at a concrete session seeded with velocity (1, 0). -/
theorem momentum_session_decay_witness :
    ∃ N : ℕ, 0 < N ∧
      (|(1:ℝ)| * MOMENTUM_FRICTION ^ N < MOMENTUM_MIN_VELOCITY ∧
       |(0:ℝ)| * MOMENTUM_FRICTION ^ N < MOMENTUM_MIN_VELOCITY) ∧
      (∀ k, 0 < k → k < N →
        ¬(|(1:ℝ)| * MOMENTUM_FRICTION ^ k < MOMENTUM_MIN_VELOCITY ∧
          |(0:ℝ)| * MOMENTUM_FRICTION ^ k < MOMENTUM_MIN_VELOCITY)) ∧
      (∀ n, n < N → ∃ m : MomoState,
        (momentumRun { camInit with momentum := Option.some ⟨1, 0, 0, 0⟩ } n).1.momentum
          = Option.some m ∧
        m.velocityX = 1 * MOMENTUM_FRICTION ^ n ∧
        m.velocityY = 0 * MOMENTUM_FRICTION ^ n) ∧
      (momentumRun { camInit with momentum := Option.some ⟨1, 0, 0, 0⟩ } N).1.momentum
        = Option.none ∧
      (∀ m, N ≤ m →
        momentumRun { camInit with momentum := Option.some ⟨1, 0, 0, 0⟩ } m =
        momentumRun { camInit with momentum := Option.some ⟨1, 0, 0, 0⟩ } N) ∧
      (∀ k, frameCalls { camInit with momentum := Option.some ⟨1, 0, 0, 0⟩ } k = [] →
        frameCalls { camInit with momentum := Option.some ⟨1, 0, 0, 0⟩ } (k + 1) = []) ∧
      (∀ k c cp, c ∈ frameCalls { camInit with momentum := Option.some ⟨1, 0, 0, 0⟩ } k →
        cp ∈ frameCalls { camInit with momentum := Option.some ⟨1, 0, 0, 0⟩ } (k + 1) →
        |rotDX cp| ≤ |rotDX c| ∧ |rotDY cp| ≤ |rotDY c|) :=
  momentum_session_decay { camInit with momentum := Option.some ⟨1, 0, 0, 0⟩ } 1 0 rfl

end Cubeworld
